import Mathlib

/-!
# Verification of the Google-Flights URL compiler (`SerpAPI.py`)

This file gives a shallow embedding, in Lean 4, of the URL-compiler core of the
repository: the helpers `_csv_to_list`, `_parse_time_window`, the validators,
`_build_single_url`, `build_gf_urls`, `build_serpapi_params` and
`_serpapi_only_flags`.  The third-party payload encoder (`fast_flights`'s
`TFSData.from_interface` / `.as_b64`) is an external collaborator: following the
specification's adapter contract it is modelled by a set of boolean capability
flags (`EncoderCaps`) deciding which optional keyword arguments a trial
construction accepts, plus an opaque pure token function `tok : TFSArgs → String`
standing for the successful encoding.  `json.loads` (Python standard library) is
modelled by letting the caller carry the raw string together with its parse
result (`Option JVal`); everything downstream of the parse is translated from
the source.  Python exceptions become the `Err` sum: `ValueError`s raised by the
code's own validators split by their message family into `invalidCode`,
`invalidDate` and `invalidRequest`, and crashes of non-`ValueError` kind
(`AttributeError`/`TypeError` on non-string JSON field values) become `typeErr`.
-/

/-- `if b then [s] else []`: one conditional `append` of the Python code. -/
def condList (b : Bool) (s : String) : List String := if b then [s] else []

/-- Character-list split on a separator character (Python `str.split(sep)`:
the result always has one more piece than there are separators, empty pieces
included).  Defined structurally so that the kernel can evaluate it. -/
def splitOnChar (sep : Char) : List Char → List (List Char)
  | [] => [[]]
  | c :: rest =>
    match splitOnChar sep rest with
    | [] => [[c]]
    | cur :: rs => if c = sep then [] :: cur :: rs else (c :: cur) :: rs

/-- Python `str.strip()` (whitespace from both ends; the exotic Unicode
whitespace Python additionally strips is not modelled — no input here uses
it). -/
def stripChars (l : List Char) : List Char :=
  ((l.dropWhile Char.isWhitespace).reverse.dropWhile Char.isWhitespace).reverse

/-- All-decimal-digit parse of a nonempty character list. -/
def digitsToNat? (l : List Char) : Option Nat :=
  if l ≠ [] ∧ l.all Char.isDigit then
    some (l.foldl (fun n c => n * 10 + (c.toNat - 48)) 0)
  else none

/-- Python `int(p)` on an already-stripped string: optional single sign then
decimal digits (PEP-515 underscores and non-ASCII digits are not modelled; no
input in this development uses them). -/
def pyToInt? (s : String) : Option Int :=
  match s.data with
  | '+' :: rest => (digitsToNat? rest).map Int.ofNat
  | '-' :: rest => (digitsToNat? rest).map (fun n => -(n : Int))
  | l => (digitsToNat? l).map Int.ofNat

/-- `_csv_to_list`: split on commas, strip, drop empties; `None`/`""` give `[]`. -/
def csv_to_list : Option String → List String
  | none => []
  | some s =>
    if s = "" then []
    else (((splitOnChar ',' s.data).map stripChars).filter (fun p => p ≠ [])).map String.mk

/-- One character of the `^[A-Z0-9]{3}$` IATA pattern. -/
def isIataChar (c : Char) : Bool := ('A' ≤ c && c ≤ 'Z') || c.isDigit

/-- `_IATA_RE`: exactly three characters from `[A-Z0-9]`. -/
def is_iata (s : String) : Bool := s.data.length == 3 && s.data.all isIataChar

/-- One character of the `[A-Za-z0-9_]` kgmid body. -/
def isKgmidChar (c : Char) : Bool := c.isAlpha || c.isDigit || c == '_'

/-- `_KGMID_RE`: `^/m/[A-Za-z0-9_]+$`. -/
def is_kgmid (s : String) : Bool :=
  match s.data with
  | '/' :: 'm' :: '/' :: rest => rest ≠ [] && rest.all isKgmidChar
  | _ => false

/-- `_is_airport_or_place`. -/
def is_airport_or_place (s : String) : Bool := is_iata s || is_kgmid s

def isLeapYear (y : Nat) : Bool := y % 4 == 0 && (y % 100 != 0 || y % 400 == 0)

def daysInMonth (y m : Nat) : Nat :=
  if m == 2 then (if isLeapYear y then 29 else 28)
  else if m == 4 || m == 6 || m == 9 || m == 11 then 30
  else 31

/-- `_validate_iso_date` / `datetime.date.fromisoformat` on the canonical
`YYYY-MM-DD` form: four-digit year, two-digit month and day, real calendar
date.  (The extended ISO forms accepted by Python ≥ 3.11 are not modelled; no
claim depends on them.) -/
def iso_date_valid (s : String) : Bool :=
  match splitOnChar '-' s.data with
  | [ys, ms, ds] =>
      ys.length == 4 && ms.length == 2 && ds.length == 2 &&
      (match digitsToNat? ys, digitsToNat? ms, digitsToNat? ds with
       | some y, some m, some d =>
         decide (1 ≤ y ∧ 1 ≤ m ∧ m ≤ 12 ∧ 1 ≤ d ∧ d ≤ daysInMonth y m)
       | _, _, _ => false)
  | _ => false

/-- The comma-split, stripped, all-parsed integer list of a time-window string
(the `try: ints = list(map(int, parts))` step of `_parse_time_window`). -/
def time_window_ints (w : String) : Option (List Int) :=
  ((splitOnChar ',' w.data).map (fun p => String.mk (stripChars p))).mapM pyToInt?

/-- `_parse_time_window`: `None`/`""` and unparsable strings give
`(None, None)`; exactly 2 integers give one window; exactly 4 give two; any
other arity gives `(None, None)`. -/
def parse_time_window : Option String → Option (Int × Int) × Option (Int × Int)
  | none => (none, none)
  | some w =>
    if w = "" then (none, none)
    else
      match time_window_ints w with
      | none => (none, none)
      | some [a, b] => (some (a, b), none)
      | some [a, b, c, d] => (some (a, b), some (c, d))
      | some _ => (none, none)

def hexDigitChar (n : Nat) : Char := if n < 10 then Char.ofNat (48 + n) else Char.ofNat (55 + n)

/-- UTF-8 bytes of one scalar value, as `Nat`s. -/
def utf8Bytes (c : Char) : List Nat :=
  let n := c.toNat
  if n < 128 then [n]
  else if n < 2048 then [192 + n / 64, 128 + n % 64]
  else if n < 65536 then [224 + n / 4096, 128 + n / 64 % 64, 128 + n % 64]
  else [240 + n / 262144, 128 + n / 4096 % 64, 128 + n / 64 % 64, 128 + n % 64]

/-- `urllib.parse`'s always-safe characters (letters, digits, `_.-~`). -/
def alwaysSafeChar (c : Char) : Bool :=
  c.isAlpha || c.isDigit || c == '_' || c == '.' || c == '-' || c == '~'

def pctByte (n : Nat) : String := String.mk ['%', hexDigitChar (n / 16), hexDigitChar (n % 16)]

/-- `_q`: `urllib.parse.quote_plus(v, safe="")` — space becomes `+`, always-safe
characters pass through, everything else is percent-encoded byte-wise. -/
def quote_plus (s : String) : String :=
  s.data.foldl (fun acc c =>
    if c == ' ' then acc ++ "+"
    else if alwaysSafeChar c then acc.push c
    else acc ++ String.join ((utf8Bytes c).map pctByte)) ""

/-- `_TRAVEL_CLASS`. -/
def travel_class_map : String → Option String
  | "1" => some "economy"
  | "2" => some "premium-economy"
  | "3" => some "business"
  | "4" => some "first"
  | _ => none

/-- `_STOPS_MAP`: the outer `Option` is table membership, the inner value is the
mapped `max_stops` (`"0"` maps to `None`, i.e. no `max_stops` key). -/
def stops_map : String → Option (Option Int)
  | "0" => some none
  | "1" => some (some 0)
  | "2" => some (some 1)
  | "3" => some (some 2)
  | _ => none

structure Passengers where
  adults : Int
  children : Int
  infants_in_seat : Int
  infants_on_lap : Int
deriving DecidableEq

/-- `fast_flights.FlightData`.  `date` is `Option` because the source can pass
`return_date=None` through (`_build_single_url` line 154 with `type="1"`). -/
structure FlightData where
  date : Option String
  from_airport : String
  to_airport : String
deriving DecidableEq

/-- The keyword-argument dictionary handed to `TFSData.from_interface`
(`tfs_kwargs`).  A `none` optional field is an absent key.  (`max_stops` present
with value `None` — multi-city branch with `stops="0"` — is conflated with the
absent key; the abstract encoder cannot distinguish them and no claim does.) -/
structure TFSArgs where
  flight_data : List FlightData
  trip : String
  passengers : Passengers
  seat : Option String := none
  max_stops : Option Int := none
  include_airlines : Option (List String) := none
  exclude_airlines : Option (List String) := none
  dep_time_window : Option (Int × Int) := none
  arr_time_window : Option (Int × Int) := none
  dep_time_windows : Option (List (Option (Int × Int))) := none
  arr_time_windows : Option (List (Option (Int × Int))) := none
deriving DecidableEq

/-- Modelled from the spec: the installed `fast_flights` version, §4.3/§4.4 of
the specification — a static table of capability flags saying which optional
keyword arguments (and the multi-city trip tag) `TFSData.from_interface`
accepts; the library itself is an external collaborator, not repository code. -/
structure EncoderCaps where
  multi_city : Bool
  include_airlines : Bool
  exclude_airlines : Bool
  dep_time_window : Bool
  arr_time_window : Bool
  per_leg_windows : Bool
deriving DecidableEq

/-- Whether a trial `TFSData.from_interface(**a)` construction is accepted
(no `TypeError`) by the installed encoder. -/
def from_interface_ok (caps : EncoderCaps) (a : TFSArgs) : Bool :=
  (a.trip != "multi-city" || caps.multi_city) &&
  (a.include_airlines.isNone || caps.include_airlines) &&
  (a.exclude_airlines.isNone || caps.exclude_airlines) &&
  (a.dep_time_window.isNone || caps.dep_time_window) &&
  (a.arr_time_window.isNone || caps.arr_time_window) &&
  (a.dep_time_windows.isNone || caps.per_leg_windows) &&
  (a.arr_time_windows.isNone || caps.per_leg_windows)

/-- The per-link `Coverage` dataclass. -/
structure Coverage where
  encoded : List String := []
  approximated : List String := []
  unmatched : List String := []
deriving DecidableEq

/-- `LinkOut`. -/
structure LinkOut where
  url : String
  coverage : Coverage
deriving DecidableEq

/-- Raised Python exceptions: the three `ValueError` families of the source,
plus `typeErr` for non-`ValueError` crashes (`.get` on a non-dict,
`re.match`/`fromisoformat` on a non-string). -/
inductive Err where
  | invalidCode (s : String)
  | invalidDate (s : String)
  | invalidRequest (msg : String)
  | typeErr (msg : String)
deriving DecidableEq

/-- Parsed JSON values (the result of `json.loads`). -/
inductive JVal where
  | null
  | bool (b : Bool)
  | num (n : Int)
  | str (s : String)
  | arr (xs : List JVal)
  | obj (kvs : List (String × JVal))

/-- Fallback-mapping values: the Python value kinds that reach
`build_serpapi_params` from `build_gf_urls`'s `locals()`. -/
inductive Val where
  | str (s : String)
  | int (n : Int)
  | bool (b : Bool)
deriving DecidableEq

/-- The dictionary returned by `build_gf_urls`. -/
structure BuildResult where
  links : List LinkOut
  unmatched_global : List String
  serpapi_fallback : List (String × Val)
deriving DecidableEq

/-- The keyword arguments of `build_gf_urls`, with their source defaults.
`multi_city_json` carries the raw string together with its `json.loads` result
(`none` = parse failure); everything else is exactly the source's surface. -/
structure Request where
  departure_id : Option String := none
  arrival_id : Option String := none
  outbound_date : Option String := none
  return_date : Option String := none
  type : Option String := none
  travel_class : Option String := none
  adults : Int := 1
  children : Int := 0
  infants_in_seat : Int := 0
  infants_on_lap : Int := 0
  stops : Option String := none
  include_airlines : Option String := none
  exclude_airlines : Option String := none
  outbound_times : Option String := none
  return_times : Option String := none
  hl : String := "en"
  gl : String := "US"
  currency : String := "USD"
  deep_search : Option Bool := none
  show_hidden : Option Bool := none
  bags : Option Int := none
  max_price : Option Int := none
  sort_by : Option String := none
  emissions : Option String := none
  layover_duration : Option String := none
  exclude_conns : Option String := none
  max_duration : Option Int := none
  departure_token : Option String := none
  booking_token : Option String := none
  multi_city_json : Option (String × Option JVal) := none

/-- The keyword arguments of `_build_single_url`. -/
structure SingleReq where
  dep : String
  arr : String
  outbound_date : String
  return_date : Option String
  type : Option String
  travel_class : Option String
  adults : Int
  children : Int
  infants_in_seat : Int
  infants_on_lap : Int
  stops : Option String
  include_airlines : List String
  exclude_airlines : List String
  outbound_times : Option String
  return_times : Option String
  hl : String
  gl : String
  currency : String

/-- One validated multi-city leg (`dict(dep=d, arr=a, date=dt)`). -/
structure MCLeg where
  dep : String
  arr : String
  date : String
deriving DecidableEq

/-- The `seat`/cabin coverage step of `_build_single_url` (lines 171–177):
`(encoded-part, unmatched-part)`.  A falsy (`""`) `travel_class` records
nothing. -/
def cov_travel_class (tc? : Option String) : List String × List String :=
  match tc? with
  | none => ([], [])
  | some tc =>
    if tc = "" then ([], [])
    else
      match travel_class_map tc with
      | some _ => (["travel_class"], [])
      | none => ([], ["travel_class (" ++ tc ++ ")"])

/-- The `stops` step of `_build_single_url` (lines 179–186):
`(max_stops, encoded-part, unmatched-part)`. -/
def stops_resolve (s? : Option String) : Option Int × List String × List String :=
  match s? with
  | none => (none, [], [])
  | some s =>
    match stops_map s with
    | some ms => (ms, ["stops"], [])
    | none => (none, [], ["stops (" ++ s ++ ")"])

/-- `_try_kw`: probe the encoder with one extra keyword; acceptance keeps the
key and records it as encoded, rejection (`TypeError`) records it as
unmatched.  Returns `(kept, encoded-part, unmatched-part)`. -/
def try_kw (supported : Bool) (name : String) : Bool × List String × List String :=
  if supported then (true, [name], [])
  else (false, [], [name ++ " (not supported by installed fast-flights)"])

/-- The round-trip decision of `_build_single_url` lines 146–159: `type="1"`,
or a (non-`None`) return date with no declared type. -/
def round_trip_flag (q : SingleReq) : Bool :=
  q.type == some "1" || (q.return_date.isSome && q.type == none)

/-- Lines 143–252 of `_build_single_url`: legs, passengers, coverage and the
`tfs_kwargs` dictionary ultimately passed to `TFSData.from_interface`. -/
def build_single_core (caps : EncoderCaps) (q : SingleReq) : TFSArgs × Coverage :=
  let rt := round_trip_flag q
  let legs : List FlightData :=
    if rt then
      [⟨some q.outbound_date, q.dep, q.arr⟩, ⟨q.return_date, q.arr, q.dep⟩]
    else [⟨some q.outbound_date, q.dep, q.arr⟩]
  let pax : Passengers :=
    ⟨max 0 q.adults, max 0 q.children, max 0 q.infants_in_seat, max 0 q.infants_on_lap⟩
  let tcCov := cov_travel_class q.travel_class
  let st := stops_resolve q.stops
  let ow := parse_time_window q.outbound_times
  let rw := if rt then parse_time_window q.return_times else (none, none)
  let inc := if q.include_airlines ≠ [] then try_kw caps.include_airlines "include_airlines" else (false, [], [])
  let exc := if q.exclude_airlines ≠ [] then try_kw caps.exclude_airlines "exclude_airlines" else (false, [], [])
  let dtw := if ow.1.isSome then try_kw caps.dep_time_window "dep_time_window" else (false, [], [])
  let atw := if ow.2.isSome then try_kw caps.arr_time_window "arr_time_window" else (false, [], [])
  let retc := rt && (rw.1.isSome || rw.2.isSome)
  let plw : Bool × List String × List String :=
    if retc then
      (if caps.per_leg_windows then (true, ["dep_time_windows/arr_time_windows"], [])
       else (false, [], ["return_times (per-leg windows unsupported; only outbound applied)"]))
    else (false, [], [])
  let args : TFSArgs := {
    flight_data := legs,
    trip := if rt then "round-trip" else "one-way",
    passengers := pax,
    seat := q.travel_class.bind travel_class_map,
    max_stops := st.1,
    include_airlines := if inc.1 then some q.include_airlines else none,
    exclude_airlines := if exc.1 then some q.exclude_airlines else none,
    dep_time_window := if dtw.1 then ow.1 else none,
    arr_time_window := if atw.1 then ow.2 else none,
    dep_time_windows := if plw.1 then some [ow.1, rw.1] else none,
    arr_time_windows := if plw.1 then some [ow.2, rw.2] else none }
  let cov : Coverage := {
    encoded := tcCov.1 ++ st.2.1 ++ inc.2.1 ++ exc.2.1 ++ dtw.2.1 ++ atw.2.1 ++
               plw.2.1 ++ ["tfs", "hl", "gl", "currency"],
    approximated := plw.2.2,
    unmatched := tcCov.2 ++ st.2.2 ++ inc.2.2 ++ exc.2.2 ++ dtw.2.2 ++ atw.2.2 }
  (args, cov)

/-- The final URL f-string of `_build_single_url` / `build_gf_urls`. -/
def urlOf (tfs hl gl curr : String) : String :=
  "https://www.google.com/travel/flights?tfs=" ++ quote_plus tfs ++
  "&hl=" ++ quote_plus hl ++ "&gl=" ++ quote_plus gl ++ "&curr=" ++ quote_plus curr

/-- `if return_date:` — a return date is validated only when truthy. -/
def rd_needs_validation : Option String → Bool
  | none => false
  | some s => s != ""

/-- `_build_single_url`: validation (lines 136–141) followed by the core and
the URL assembly.  `tok` is the opaque pure encoding
`TFSData.from_interface(**kwargs).as_b64().decode()` of the accepted keyword
set. -/
def build_single_url (caps : EncoderCaps) (tok : TFSArgs → String) (q : SingleReq) :
    Except Err LinkOut :=
  if !is_airport_or_place q.dep then .error (.invalidCode q.dep)
  else if !is_airport_or_place q.arr then .error (.invalidCode q.arr)
  else if !iso_date_valid q.outbound_date then .error (.invalidDate q.outbound_date)
  else if rd_needs_validation q.return_date && !iso_date_valid (q.return_date.getD "") then
    .error (.invalidDate (q.return_date.getD ""))
  else
    let ac := build_single_core caps q
    .ok ⟨urlOf (tok ac.1) q.hl q.gl q.currency, ac.2⟩

/-- The `for`-loop of `build_gf_urls` collecting `LinkOut`s: the first raised
exception propagates. -/
def build_links_loop {α : Type} (f : α → Except Err LinkOut) : List α → Except Err (List LinkOut)
  | [] => .ok []
  | x :: xs =>
    match f x with
    | .error e => .error e
    | .ok l =>
      match build_links_loop f xs with
      | .error e => .error e
      | .ok ls => .ok (l :: ls)

/-- Truthiness of an optional string (`if s:`). -/
def opt_str_truthy : Option String → Bool
  | none => false
  | some s => s != ""

/-- `_serpapi_only_flags`. -/
def serpapi_only_flags (r : Request) : List String :=
  condList (r.deep_search == some true) "deep_search (SerpApi-only)" ++
  condList (r.show_hidden == some true) "show_hidden (SerpApi-only)" ++
  condList (match r.bags with | some b => b != 0 | none => false) "bags (no URL equivalent)" ++
  condList r.max_price.isSome "max_price (no URL equivalent)" ++
  condList r.sort_by.isSome "sort_by (no URL equivalent)" ++
  condList r.emissions.isSome "emissions (no URL equivalent)" ++
  condList (opt_str_truthy r.layover_duration) "layover_duration (no URL equivalent)" ++
  condList (opt_str_truthy r.exclude_conns) "exclude_conns (no URL equivalent)" ++
  condList r.max_duration.isSome "max_duration (no URL equivalent)" ++
  condList (opt_str_truthy r.departure_token) "departure_token (result-navigation, SerpApi-only)" ++
  condList (opt_str_truthy r.booking_token) "booking_token (booking step, SerpApi-only)"

/-- One key of `build_serpapi_params`: dropped when absent (`None`) or the
empty string (`v not in (None, "", [])`; no list value reaches this call
site, so the CSV-join loop is the identity here). -/
def fb_entry (k : String) : Option Val → List (String × Val)
  | none => []
  | some v => if v = Val.str "" then [] else [(k, v)]

/-- `build_serpapi_params(**locals() | {"engine": "google_flights"})` as called
from `build_gf_urls`: `locals()` restricted to the allow-list is exactly the
function's 30 keyword parameters, in declaration order, plus the appended
`engine`. -/
def build_serpapi_params (r : Request) : List (String × Val) :=
  fb_entry "departure_id" (r.departure_id.map .str) ++
  fb_entry "arrival_id" (r.arrival_id.map .str) ++
  fb_entry "outbound_date" (r.outbound_date.map .str) ++
  fb_entry "return_date" (r.return_date.map .str) ++
  fb_entry "type" (r.type.map .str) ++
  fb_entry "travel_class" (r.travel_class.map .str) ++
  fb_entry "adults" (some (.int r.adults)) ++
  fb_entry "children" (some (.int r.children)) ++
  fb_entry "infants_in_seat" (some (.int r.infants_in_seat)) ++
  fb_entry "infants_on_lap" (some (.int r.infants_on_lap)) ++
  fb_entry "stops" (r.stops.map .str) ++
  fb_entry "include_airlines" (r.include_airlines.map .str) ++
  fb_entry "exclude_airlines" (r.exclude_airlines.map .str) ++
  fb_entry "outbound_times" (r.outbound_times.map .str) ++
  fb_entry "return_times" (r.return_times.map .str) ++
  fb_entry "hl" (some (.str r.hl)) ++
  fb_entry "gl" (some (.str r.gl)) ++
  fb_entry "currency" (some (.str r.currency)) ++
  fb_entry "deep_search" (r.deep_search.map .bool) ++
  fb_entry "show_hidden" (r.show_hidden.map .bool) ++
  fb_entry "bags" (r.bags.map .int) ++
  fb_entry "max_price" (r.max_price.map .int) ++
  fb_entry "sort_by" (r.sort_by.map .str) ++
  fb_entry "emissions" (r.emissions.map .str) ++
  fb_entry "layover_duration" (r.layover_duration.map .str) ++
  fb_entry "exclude_conns" (r.exclude_conns.map .str) ++
  fb_entry "max_duration" (r.max_duration.map .int) ++
  fb_entry "departure_token" (r.departure_token.map .str) ++
  fb_entry "booking_token" (r.booking_token.map .str) ++
  fb_entry "multi_city_json" (r.multi_city_json.map (fun p => .str p.1)) ++
  [("engine", Val.str "google_flights")]

/-- `sorted(set(xs))` on strings. -/
def sort_dedup (l : List String) : List String :=
  List.insertionSort (fun a b => a ≤ b) l.dedup

/-- Truthiness of the `return_date` argument. -/
def rd_truthy (r : Request) : Bool :=
  match r.return_date with
  | some s => s != ""
  | none => false

/-- Truthiness of the `outbound_date` argument. -/
def od_truthy (r : Request) : Bool :=
  match r.outbound_date with
  | some s => s != ""
  | none => false

/-- Line 406: `return_date if (type == "1" or (return_date and type is None))
else None`. -/
def pass_return_date (r : Request) : Option String :=
  if r.type == some "1" || (rd_truthy r && r.type == none) then r.return_date else none

/-- The `_build_single_url` argument set built for one `(dep, arr)` pair of the
cartesian product (lines 403–416). -/
def mk_single_req (r : Request) (od dep arr : String) : SingleReq :=
  { dep := dep, arr := arr, outbound_date := od,
    return_date := pass_return_date r,
    type := r.type, travel_class := r.travel_class,
    adults := r.adults, children := r.children,
    infants_in_seat := r.infants_in_seat, infants_on_lap := r.infants_on_lap,
    stops := r.stops,
    include_airlines := csv_to_list r.include_airlines,
    exclude_airlines := csv_to_list r.exclude_airlines,
    outbound_times := r.outbound_times, return_times := r.return_times,
    hl := r.hl, gl := r.gl, currency := r.currency }

/-- `itertools.product(deps, arrs)`: destinations iterate inside origins. -/
def pairs_of (ds as : List String) : List (String × String) :=
  ds.flatMap (fun d => as.map (fun a => (d, a)))

/-- The single-pair (non multi-city) arm of `build_gf_urls` (lines 391–426). -/
def build_single_path (caps : EncoderCaps) (tok : TFSArgs → String) (r : Request) :
    Except Err BuildResult :=
  let deps := csv_to_list r.departure_id
  let arrs := csv_to_list r.arrival_id
  if deps.isEmpty || arrs.isEmpty then
    .error (.invalidRequest "departure_id and arrival_id are required (CSV or single).")
  else
    match r.outbound_date with
    | none => .error (.invalidRequest "outbound_date is required for non multi-city searches.")
    | some od =>
      if od = "" then
        .error (.invalidRequest "outbound_date is required for non multi-city searches.")
      else if r.type == some "1" && !rd_truthy r then
        .error (.invalidRequest "return_date is required when type=1 (Round trip).")
      else
        match build_links_loop (fun p => build_single_url caps tok (mk_single_req r od p.1 p.2))
                (pairs_of deps arrs) with
        | .error e => .error e
        | .ok links =>
          .ok ⟨links, sort_dedup (serpapi_only_flags r), build_serpapi_params r⟩

/-- Python truthiness of a `json.loads` value. -/
def jTruthy : JVal → Bool
  | .null => false
  | .bool b => b
  | .num n => n != 0
  | .str s => s != ""
  | .arr xs => !xs.isEmpty
  | .obj kvs => !kvs.isEmpty

/-- `dict.get` lookup (first binding wins). -/
def jLookup (kvs : List (String × JVal)) (k : String) : Option JVal :=
  match kvs.find? (fun kv => kv.1 == k) with
  | some kv => some kv.2
  | none => none

/-- `leg.get(key)`: `AttributeError` (a non-`ValueError` crash) on a non-dict
leg. -/
def jGet : JVal → String → Except Err (Option JVal)
  | .obj kvs, k => .ok (jLookup kvs k)
  | _, _ => .error (.typeErr "object has no attribute get")

def opt_jtruthy : Option JVal → Bool
  | none => false
  | some j => jTruthy j

/-- `_validate_airport_or_place` applied to a JSON field value: `re.match`
raises `TypeError` on a non-string. -/
def validate_code_json : Option JVal → Except Err String
  | some (.str s) => if is_airport_or_place s then .ok s else .error (.invalidCode s)
  | _ => .error (.typeErr "expected string or bytes-like object")

/-- `_validate_iso_date` applied to a JSON field value. -/
def validate_date_json : Option JVal → Except Err String
  | some (.str s) => if iso_date_valid s then .ok s else .error (.invalidDate s)
  | _ => .error (.typeErr "fromisoformat argument must be str")

/-- The multi-city leg loop of `build_gf_urls` (lines 332–337). -/
def extract_mc_legs : List JVal → Except Err (List MCLeg)
  | [] => .ok []
  | x :: xs =>
    match jGet x "departure_id" with
    | .error e => .error e
    | .ok d? =>
      match jGet x "arrival_id" with
      | .error e => .error e
      | .ok a? =>
        match jGet x "date" with
        | .error e => .error e
        | .ok t? =>
          if !(opt_jtruthy d? && opt_jtruthy a? && opt_jtruthy t?) then
            .error (.invalidRequest "Each multi-city leg needs departure_id, arrival_id, date")
          else
            match validate_code_json d? with
            | .error e => .error e
            | .ok d =>
              match validate_code_json a? with
              | .error e => .error e
              | .ok a =>
                match validate_date_json t? with
                | .error e => .error e
                | .ok t =>
                  match extract_mc_legs xs with
                  | .error e => .error e
                  | .ok rest => .ok (⟨d, a, t⟩ :: rest)

/-- Truthiness of the `multi_city_json` argument (its raw string). -/
def mc_truthy : Option (String × Option JVal) → Bool
  | none => false
  | some (raw, _) => raw != ""

/-- The `_build_single_url` argument set of the multi-city per-leg fallback
(lines 373–383). -/
def mc_single_req (r : Request) (l : MCLeg) : SingleReq :=
  { dep := l.dep, arr := l.arr, outbound_date := l.date,
    return_date := none, type := some "2",
    travel_class := r.travel_class,
    adults := r.adults, children := r.children,
    infants_in_seat := r.infants_in_seat, infants_on_lap := r.infants_on_lap,
    stops := r.stops,
    include_airlines := csv_to_list r.include_airlines,
    exclude_airlines := csv_to_list r.exclude_airlines,
    outbound_times := none, return_times := none,
    hl := r.hl, gl := r.gl, currency := r.currency }

/-- The `json.loads` / shape-assert step of the multi-city arm (lines
326–330): anything other than a truthy payload parsing to a non-empty JSON
array raises `ValueError("Invalid multi_city_json: ...")`. -/
def mc_legs_json (r : Request) : Except Err (List JVal) :=
  match r.multi_city_json with
  | some (raw, pj) =>
    if raw != "" then
      match pj with
      | none => .error (.invalidRequest "Invalid multi_city_json: not parseable")
      | some (.arr []) =>
        .error (.invalidRequest "Invalid multi_city_json: multi_city_json must be a non-empty JSON array")
      | some (.arr xs) => .ok xs
      | some _ =>
        .error (.invalidRequest "Invalid multi_city_json: multi_city_json must be a non-empty JSON array")
    else
      .error (.invalidRequest "Invalid multi_city_json: multi_city_json must be a non-empty JSON array")
  | none =>
    .error (.invalidRequest "Invalid multi_city_json: multi_city_json must be a non-empty JSON array")

/-- One airline probe of the multi-city arm (lines 352–362): when the CSV list
is truthy, a trial construction with the extra key either keeps the key or
appends one global unmatched entry. -/
def mc_probe (caps : EncoderCaps) (present : Bool) (base upd : TFSArgs) (entry : String) :
    TFSArgs × List String :=
  if present then
    (if from_interface_ok caps upd then (upd, []) else (base, [entry]))
  else (base, [])

/-- The multi-city `tfs_kwargs` before the airline probes (lines 343–350). -/
def mc_args0 (r : Request) (legs : List MCLeg) : TFSArgs :=
  { flight_data := legs.map (fun l => ⟨some l.date, l.dep, l.arr⟩),
    trip := "multi-city",
    passengers := ⟨r.adults, r.children, r.infants_in_seat, r.infants_on_lap⟩,
    seat := r.travel_class.bind travel_class_map,
    max_stops := (r.stops.bind stops_map).join }

def inc_ns_entry : String := "include_airlines (not supported by installed fast-flights)"

def exc_ns_entry : String := "exclude_airlines (not supported by installed fast-flights)"

def mc_entry_str : String :=
  "multi-city (not supported by installed fast-flights; returned per-leg URLs)"

/-- Lines 340–389 of the multi-city arm, after leg validation: try one
multi-city encoding; on rejection fall back to per-leg one-way links over
`range(len(legs)-1)` (i.e. all legs but the last) and record the multi-city
entry globally. -/
def build_multi_city_core (caps : EncoderCaps) (tok : TFSArgs → String) (r : Request)
    (legs : List MCLeg) : Except Err BuildResult :=
  let args0 := mc_args0 r legs
  let inc := csv_to_list r.include_airlines
  let exc := csv_to_list r.exclude_airlines
  let p1 := mc_probe caps (!inc.isEmpty) args0 { args0 with include_airlines := some inc } inc_ns_entry
  let p2 := mc_probe caps (!exc.isEmpty) p1.1 { p1.1 with exclude_airlines := some exc } exc_ns_entry
  let covg := p1.2 ++ p2.2
  if from_interface_ok caps p2.1 then
    .ok ⟨[⟨urlOf (tok p2.1) r.hl r.gl r.currency, ⟨["tfs", "hl", "gl", "currency"], [], []⟩⟩],
         sort_dedup (covg ++ serpapi_only_flags r), build_serpapi_params r⟩
  else
    match build_links_loop (fun l => build_single_url caps tok (mc_single_req r l))
            legs.dropLast with
    | .error e => .error e
    | .ok links =>
      .ok ⟨links, sort_dedup ((covg ++ [mc_entry_str]) ++ serpapi_only_flags r),
           build_serpapi_params r⟩

/-- The multi-city arm of `build_gf_urls` (lines 321–389). -/
def build_multi_city (caps : EncoderCaps) (tok : TFSArgs → String) (r : Request) :
    Except Err BuildResult :=
  match mc_legs_json r with
  | .error e => .error e
  | .ok xs =>
    match extract_mc_legs xs with
    | .error e => .error e
    | .ok legs => build_multi_city_core caps tok r legs

/-- `build_gf_urls` (public entry point). -/
def build_gf_urls (caps : EncoderCaps) (tok : TFSArgs → String) (r : Request) :
    Except Err BuildResult :=
  if r.type == some "3" || mc_truthy r.multi_city_json then build_multi_city caps tok r
  else build_single_path caps tok r

/-- A fully capable installed encoder (used for concrete instantiations). -/
def capsAll : EncoderCaps :=
  ⟨true, true, true, true, true, true⟩

/-- An installed encoder lacking multi-city support. -/
def capsNoMC : EncoderCaps :=
  { capsAll with multi_city := false }

/-- A concrete opaque token function for concrete instantiations. -/
def tokT : TFSArgs → String := fun _ => "TOK"

/-! ## Basic lemmas about the embedded operations -/

theorem build_links_loop_length {α : Type} {f : α → Except Err LinkOut} :
    ∀ {l : List α} {ys}, build_links_loop f l = .ok ys → ys.length = l.length := by
  intro l
  induction l with
  | nil =>
    intro ys h
    simp only [build_links_loop, Except.ok.injEq] at h
    subst h
    rfl
  | cons x xs ih =>
    intro ys h
    simp only [build_links_loop] at h
    cases hf : f x with
    | error e => rw [hf] at h; cases h
    | ok y =>
      rw [hf] at h
      cases hr : build_links_loop f xs with
      | error e => rw [hr] at h; cases h
      | ok ls =>
        rw [hr] at h
        simp only [Except.ok.injEq] at h
        subst h
        simp [ih hr]

theorem build_links_loop_getElem {α : Type} {f : α → Except Err LinkOut} :
    ∀ {l : List α} {ys}, build_links_loop f l = .ok ys →
      ∀ (i : Nat) (x : α), l[i]? = some x → ys[i]? = (f x).toOption := by
  intro l
  induction l with
  | nil =>
    intro ys _ i x hx
    simp at hx
  | cons z xs ih =>
    intro ys h i x hx
    simp only [build_links_loop] at h
    cases hf : f z with
    | error e => rw [hf] at h; cases h
    | ok y =>
      rw [hf] at h
      cases hr : build_links_loop f xs with
      | error e => rw [hr] at h; cases h
      | ok ls =>
        rw [hr] at h
        simp only [Except.ok.injEq] at h
        subst h
        cases i with
        | zero =>
          simp only [List.getElem?_cons_zero, Option.some.injEq] at hx
          subst hx
          simp [hf, Except.toOption]
        | succ j =>
          simp only [List.getElem?_cons_succ] at hx ⊢
          exact ih hr j x hx

theorem build_links_loop_mem {α : Type} {f : α → Except Err LinkOut} :
    ∀ {l : List α} {ys}, build_links_loop f l = .ok ys →
      ∀ y ∈ ys, ∃ x, x ∈ l ∧ f x = .ok y := by
  intro l
  induction l with
  | nil =>
    intro ys h y hy
    simp only [build_links_loop, Except.ok.injEq] at h
    subst h
    simp at hy
  | cons z xs ih =>
    intro ys h y hy
    simp only [build_links_loop] at h
    cases hf : f z with
    | error e => rw [hf] at h; cases h
    | ok w =>
      rw [hf] at h
      cases hr : build_links_loop f xs with
      | error e => rw [hr] at h; cases h
      | ok ls =>
        rw [hr] at h
        simp only [Except.ok.injEq] at h
        subst h
        rcases List.mem_cons.mp hy with hy | hy
        · exact ⟨z, by simp, by rw [hf, hy]⟩
        · obtain ⟨x, hx, hfx⟩ := ih hr y hy
          exact ⟨x, by simp [hx], hfx⟩

theorem build_links_loop_total {α : Type} {f : α → Except Err LinkOut} :
    ∀ {l : List α}, (∀ x ∈ l, ∃ y, f x = .ok y) →
      ∃ ys, build_links_loop f l = .ok ys := by
  intro l
  induction l with
  | nil => intro _; exact ⟨[], rfl⟩
  | cons z xs ih =>
    intro h
    obtain ⟨y, hy⟩ := h z (by simp)
    obtain ⟨ys, hys⟩ := ih (fun x hx => h x (by simp [hx]))
    exact ⟨y :: ys, by simp only [build_links_loop, hy, hys]⟩

theorem pairs_of_length (ds as : List String) :
    (pairs_of ds as).length = ds.length * as.length := by
  induction ds with
  | nil => simp [pairs_of]
  | cons d ds ih =>
    simp only [pairs_of, List.flatMap_cons, List.length_append, List.length_map,
      List.length_cons] at ih ⊢
    rw [ih, Nat.succ_mul, Nat.add_comm]

theorem pairs_of_getElem (ds as : List String) :
    ∀ i, i < ds.length * as.length →
      (pairs_of ds as)[i]? = some (ds.getD (i / as.length) "", as.getD (i % as.length) "") := by
  induction ds with
  | nil => intro i h; simp at h
  | cons d ds ih =>
    intro i h
    have hn : 0 < as.length := by
      rcases Nat.eq_zero_or_pos as.length with h0 | h0
      · rw [h0, Nat.mul_zero] at h; exact absurd h (Nat.not_lt_zero i)
      · exact h0
    simp only [pairs_of, List.flatMap_cons]
    by_cases hi : i < as.length
    · rw [List.getElem?_append, if_pos (by simpa using hi)]
      rw [Nat.div_eq_of_lt hi, Nat.mod_eq_of_lt hi]
      simp only [List.getElem?_map, List.getD_cons_zero]
      have : as[i]? = some (as.getD i "") := by
        rw [List.getD_eq_getElem?_getD]
        cases hx : as[i]? with
        | none => exact absurd (List.getElem?_eq_none_iff.mp hx) (by omega)
        | some a => rfl
      rw [this]
      rfl
    · push_neg at hi
      rw [List.getElem?_append, if_neg (by simpa using Nat.not_lt.mpr hi)]
      have hdiv : i / as.length = (i - as.length) / as.length + 1 := by
        rw [Nat.div_eq_sub_div hn hi]
      have hmod : i % as.length = (i - as.length) % as.length := by
        rw [Nat.mod_eq_sub_mod hi]
      rw [hdiv, hmod]
      simp only [List.length_map, List.getD_cons_succ]
      apply ih
      have hh : (ds.length + 1) * as.length = ds.length * as.length + as.length := by ring
      simp only [List.length_cons] at h
      omega

theorem pairs_of_mem {ds as : List String} {p : String × String} :
    p ∈ pairs_of ds as → p.1 ∈ ds ∧ p.2 ∈ as := by
  intro hp
  simp only [pairs_of, List.mem_flatMap, List.mem_map] at hp
  obtain ⟨d, hd, a, ha, rfl⟩ := hp
  exact ⟨hd, ha⟩

theorem mem_sort_dedup {a : String} {l : List String} : a ∈ sort_dedup l ↔ a ∈ l := by
  unfold sort_dedup
  rw [(List.perm_insertionSort _ l.dedup).mem_iff]
  exact List.mem_dedup

theorem sort_dedup_sorted (l : List String) : (sort_dedup l).Sorted (· ≤ ·) :=
  List.sorted_insertionSort _ l.dedup

theorem sort_dedup_nodup (l : List String) : (sort_dedup l).Nodup :=
  ((List.perm_insertionSort _ l.dedup).nodup_iff).2 l.nodup_dedup

theorem airport_ne_empty {s : String} (h : is_airport_or_place s = true) : s ≠ "" := by
  intro he
  rw [he] at h
  exact absurd h (by decide)

theorem build_single_url_ok {caps : EncoderCaps} {tok : TFSArgs → String} {q : SingleReq}
    (hd : is_airport_or_place q.dep = true) (ha : is_airport_or_place q.arr = true)
    (hod : iso_date_valid q.outbound_date = true)
    (hrd : rd_needs_validation q.return_date = true →
      iso_date_valid (q.return_date.getD "") = true) :
    build_single_url caps tok q =
      .ok ⟨urlOf (tok (build_single_core caps q).1) q.hl q.gl q.currency,
           (build_single_core caps q).2⟩ := by
  unfold build_single_url
  rw [hd, ha, hod]
  cases hv : rd_needs_validation q.return_date with
  | false => simp
  | true => simp [hrd hv]

/-! ## Claim theorems -/

/-- C2: for every request compiled as a round trip, the produced itinerary has
exactly two legs, leg 2's origin equals leg 1's destination, leg 2's
destination equals leg 1's origin, and leg 2 carries the return date. -/
theorem C2_round_trip_two_mirrored_legs (caps : EncoderCaps) (q : SingleReq)
    (h : (build_single_core caps q).1.trip = "round-trip") :
    ∃ l1 l2 : FlightData,
      (build_single_core caps q).1.flight_data = [l1, l2] ∧
      l2.from_airport = l1.to_airport ∧
      l2.to_airport = l1.from_airport ∧
      l2.date = q.return_date ∧
      l1.date = some q.outbound_date := by
  by_cases hrt : round_trip_flag q
  · refine ⟨⟨some q.outbound_date, q.dep, q.arr⟩, ⟨q.return_date, q.arr, q.dep⟩, ?_, rfl, rfl, rfl, rfl⟩
    simp only [build_single_core, hrt, if_true]
  · exfalso
    simp only [build_single_core, hrt, if_false] at h
    exact absurd h (by decide)

def qC2 : SingleReq :=
  { dep := "SYD", arr := "MEL", outbound_date := "2025-08-15",
    return_date := some "2025-08-20", type := some "1", travel_class := none,
    adults := 1, children := 0, infants_in_seat := 0, infants_on_lap := 0,
    stops := none, include_airlines := [], exclude_airlines := [],
    outbound_times := none, return_times := none,
    hl := "en", gl := "US", currency := "USD" }

/-- Witness for C2 at a concrete round-trip request. -/
theorem C2_round_trip_two_mirrored_legs_witness :
    (build_single_core capsAll qC2).1.trip = "round-trip" ∧
    ∃ l1 l2 : FlightData,
      (build_single_core capsAll qC2).1.flight_data = [l1, l2] ∧
      l2.from_airport = l1.to_airport ∧
      l2.to_airport = l1.from_airport ∧
      l2.date = qC2.return_date ∧
      l1.date = some qC2.outbound_date :=
  ⟨by decide, C2_round_trip_two_mirrored_legs capsAll qC2 (by decide)⟩

/-- C4: the time-window parser maps a string whose trimmed comma-separated
parts all parse as integers to one window when there are exactly 2 of them, to
two windows when there are exactly 4, and to "absent" (without raising) at any
other arity. -/
theorem C4_parse_time_window_arity (win : String) (l : List Int)
    (hp : time_window_ints win = some l) :
    (∀ a b : Int, l = [a, b] → parse_time_window (some win) = (some (a, b), none)) ∧
    (∀ a b c d : Int, l = [a, b, c, d] →
      parse_time_window (some win) = (some (a, b), some (c, d))) ∧
    (l.length ≠ 2 → l.length ≠ 4 → parse_time_window (some win) = (none, none)) := by
  have hw : win ≠ "" := by
    intro he
    have hnone : time_window_ints "" = none := by decide
    rw [he, hnone] at hp
    cases hp
  refine ⟨?_, ?_, ?_⟩
  · intro a b hl
    subst hl
    simp only [parse_time_window, if_neg hw, hp]
  · intro a b c d hl
    subst hl
    simp only [parse_time_window, if_neg hw, hp]
  · intro h2 h4
    simp only [parse_time_window, if_neg hw, hp]
    rcases l with _ | ⟨a, _ | ⟨b, _ | ⟨c, _ | ⟨d, _ | t⟩⟩⟩⟩
    · rfl
    · rfl
    · exact absurd rfl h2
    · rfl
    · exact absurd rfl h4
    · rfl

/-- Witness for C4: the spec's Scenario E strings. -/
theorem C4_parse_time_window_arity_witness :
    parse_time_window (some "8,18,12,22") = (some (8, 18), some (12, 22)) ∧
    parse_time_window (some "8,18,12") = (none, none) :=
  ⟨(C4_parse_time_window_arity "8,18,12,22" [8, 18, 12, 22] (by decide)).2.1 8 18 12 22 rfl,
   (C4_parse_time_window_arity "8,18,12" [8, 18, 12] (by decide)).2.2 (by decide) (by decide)⟩

/-- Extract the successful result of a compilation (used to state concrete
witnesses). -/
def resOf (x : Except Err BuildResult) : BuildResult :=
  x.toOption.getD ⟨[], [], []⟩

/-- C1: a successfully compiled single-pair request with `m` origin codes and
`n` destination codes yields exactly `m × n` links, link `i` being the
single-URL build for origin `i / n` and destination `i % n` (destinations
iterate inside origins, input order preserved). -/
theorem C1_single_pair_cartesian_links (caps : EncoderCaps) (tok : TFSArgs → String)
    (r : Request) (res : BuildResult)
    (hmc : (r.type == some "3" || mc_truthy r.multi_city_json) = false)
    (hok : build_gf_urls caps tok r = .ok res) :
    res.links.length = (csv_to_list r.departure_id).length * (csv_to_list r.arrival_id).length ∧
    ∀ i : Nat, i < (csv_to_list r.departure_id).length * (csv_to_list r.arrival_id).length →
      res.links[i]? = (build_single_url caps tok
        (mk_single_req r (r.outbound_date.getD "")
          ((csv_to_list r.departure_id).getD (i / (csv_to_list r.arrival_id).length) "")
          ((csv_to_list r.arrival_id).getD (i % (csv_to_list r.arrival_id).length) ""))).toOption := by
  simp only [build_gf_urls, hmc, Bool.false_eq_true, if_false] at hok
  simp only [build_single_path] at hok
  by_cases hde : ((csv_to_list r.departure_id).isEmpty || (csv_to_list r.arrival_id).isEmpty) = true
  · rw [if_pos hde] at hok; cases hok
  · rw [if_neg hde] at hok
    cases hod : r.outbound_date with
    | none => rw [hod] at hok; cases hok
    | some od =>
      rw [hod] at hok
      dsimp only at hok
      by_cases hoe : od = ""
      · rw [if_pos hoe] at hok; cases hok
      · rw [if_neg hoe] at hok
        by_cases ht1 : (r.type == some "1" && !rd_truthy r) = true
        · rw [if_pos ht1] at hok; cases hok
        · rw [if_neg ht1] at hok
          cases hloop : build_links_loop
              (fun p => build_single_url caps tok (mk_single_req r od p.1 p.2))
              (pairs_of (csv_to_list r.departure_id) (csv_to_list r.arrival_id)) with
          | error e => rw [hloop] at hok; cases hok
          | ok links =>
            rw [hloop] at hok
            injection hok with hok
            subst hok
            constructor
            · rw [build_links_loop_length hloop, pairs_of_length]
            · intro i hi
              have hx := pairs_of_getElem (csv_to_list r.departure_id)
                (csv_to_list r.arrival_id) i hi
              have := build_links_loop_getElem hloop i _ hx
              simpa [hod] using this

def reqC1 : Request :=
  { departure_id := some "SYD,CBR", arrival_id := some "MEL,BNE",
    outbound_date := some "2025-08-15" }

/-- Witness for C1: a 2×2 request compiles to 4 links in product order. -/
theorem C1_single_pair_cartesian_links_witness :
    (resOf (build_gf_urls capsAll tokT reqC1)).links.length =
      (csv_to_list reqC1.departure_id).length * (csv_to_list reqC1.arrival_id).length ∧
    (resOf (build_gf_urls capsAll tokT reqC1)).links[1]? =
      (build_single_url capsAll tokT
        (mk_single_req reqC1 (reqC1.outbound_date.getD "")
          ((csv_to_list reqC1.departure_id).getD (1 / (csv_to_list reqC1.arrival_id).length) "")
          ((csv_to_list reqC1.arrival_id).getD (1 % (csv_to_list reqC1.arrival_id).length) ""))).toOption := by
  have hok : build_gf_urls capsAll tokT reqC1 = .ok (resOf (build_gf_urls capsAll tokT reqC1)) := by
    rfl
  have h := C1_single_pair_cartesian_links capsAll tokT reqC1 _ (by decide) hok
  exact ⟨h.1, h.2 1 (by decide)⟩

theorem mc_probe_snd (caps : EncoderCaps) (c : Bool) (b u : TFSArgs) (e : String) :
    (mc_probe caps c b u e).2 = [] ∨ ((mc_probe caps c b u e).2 = [e] ∧ c = true) := by
  unfold mc_probe
  cases c with
  | false => simp
  | true =>
    by_cases hf : from_interface_ok caps u = true
    · simp [hf]
    · simp [hf]

theorem mc_legs_json_ok_truthy {r : Request} {xs : List JVal}
    (h : mc_legs_json r = .ok xs) : mc_truthy r.multi_city_json = true := by
  unfold mc_legs_json at h
  rcases hj : r.multi_city_json with _ | ⟨raw, pj⟩
  · rw [hj] at h; cases h
  · rw [hj] at h
    dsimp only at h
    by_cases hr0 : (raw != "") = true
    · simp [mc_truthy, hr0]
    · rw [Bool.not_eq_true] at hr0
      rw [hr0] at h
      simp only [Bool.false_eq_true, if_false] at h
      cases h

/-- Every successful `build_gf_urls` result has a `sorted(set(...))`-shaped
global unmatched list over the serpapi-only flags plus (in the multi-city arm)
at most the two airline-probe entries and the multi-city fallback entry, and
its fallback mapping is exactly `build_serpapi_params`. -/
theorem build_ok_shape {caps : EncoderCaps} {tok : TFSArgs → String} {r : Request}
    {res : BuildResult} (hok : build_gf_urls caps tok r = .ok res) :
    ∃ covg : List String,
      res.unmatched_global = sort_dedup (covg ++ serpapi_only_flags r) ∧
      res.serpapi_fallback = build_serpapi_params r ∧
      (covg ≠ [] → mc_truthy r.multi_city_json = true) ∧
      (∀ x ∈ covg,
        (x = inc_ns_entry ∧ csv_to_list r.include_airlines ≠ []) ∨
        (x = exc_ns_entry ∧ csv_to_list r.exclude_airlines ≠ []) ∨
        x = mc_entry_str) := by
  unfold build_gf_urls at hok
  by_cases hmc : (r.type == some "3" || mc_truthy r.multi_city_json) = true
  · rw [if_pos hmc] at hok
    unfold build_multi_city at hok
    cases hlj : mc_legs_json r with
    | error e => rw [hlj] at hok; cases hok
    | ok xs =>
      rw [hlj] at hok
      dsimp only at hok
      cases hexl : extract_mc_legs xs with
      | error e => rw [hexl] at hok; cases hok
      | ok legs =>
        rw [hexl] at hok
        dsimp only at hok
        have htr := mc_legs_json_ok_truthy hlj
        unfold build_multi_city_core at hok
        set p1 := mc_probe caps (!(csv_to_list r.include_airlines).isEmpty)
          (mc_args0 r legs)
          { mc_args0 r legs with include_airlines := some (csv_to_list r.include_airlines) }
          inc_ns_entry with hp1
        set p2 := mc_probe caps (!(csv_to_list r.exclude_airlines).isEmpty) p1.1
          { p1.1 with exclude_airlines := some (csv_to_list r.exclude_airlines) }
          exc_ns_entry with hp2
        have hm1 : ∀ x ∈ p1.2,
            (x = inc_ns_entry ∧ csv_to_list r.include_airlines ≠ []) ∨
            (x = exc_ns_entry ∧ csv_to_list r.exclude_airlines ≠ []) ∨
            x = mc_entry_str := by
          intro x hx
          rcases mc_probe_snd caps (!(csv_to_list r.include_airlines).isEmpty)
            (mc_args0 r legs)
            { mc_args0 r legs with include_airlines := some (csv_to_list r.include_airlines) }
            inc_ns_entry with h | ⟨h, hc⟩
          · rw [← hp1] at h; rw [h] at hx; cases hx
          · rw [← hp1] at h
            rw [h] at hx
            rcases List.mem_singleton.mp hx with rfl
            left
            refine ⟨rfl, ?_⟩
            intro he
            rw [he] at hc
            cases hc
        have hm2 : ∀ x ∈ p2.2,
            (x = inc_ns_entry ∧ csv_to_list r.include_airlines ≠ []) ∨
            (x = exc_ns_entry ∧ csv_to_list r.exclude_airlines ≠ []) ∨
            x = mc_entry_str := by
          intro x hx
          rcases mc_probe_snd caps (!(csv_to_list r.exclude_airlines).isEmpty) p1.1
            { p1.1 with exclude_airlines := some (csv_to_list r.exclude_airlines) }
            exc_ns_entry with h | ⟨h, hc⟩
          · rw [← hp2] at h; rw [h] at hx; cases hx
          · rw [← hp2] at h
            rw [h] at hx
            rcases List.mem_singleton.mp hx with rfl
            right; left
            refine ⟨rfl, ?_⟩
            intro he
            rw [he] at hc
            cases hc
        by_cases hfin : from_interface_ok caps p2.1 = true
        · rw [if_pos hfin] at hok
          injection hok with hok
          subst hok
          refine ⟨p1.2 ++ p2.2, rfl, rfl, fun _ => htr, ?_⟩
          intro x hx
          rcases List.mem_append.mp hx with hx | hx
          · exact hm1 x hx
          · exact hm2 x hx
        · rw [if_neg hfin] at hok
          split at hok
          · cases hok
          · injection hok with hok
            subst hok
            refine ⟨(p1.2 ++ p2.2) ++ [mc_entry_str], rfl, rfl, fun _ => htr, ?_⟩
            intro x hx
            rcases List.mem_append.mp hx with hx | hx
            · rcases List.mem_append.mp hx with hx | hx
              · exact hm1 x hx
              · exact hm2 x hx
            · rcases List.mem_singleton.mp hx with rfl
              right; right; rfl
  · rw [if_neg hmc] at hok
    unfold build_single_path at hok
    by_cases hde : ((csv_to_list r.departure_id).isEmpty || (csv_to_list r.arrival_id).isEmpty) = true
    · rw [if_pos hde] at hok; cases hok
    · rw [if_neg hde] at hok
      cases hod : r.outbound_date with
      | none => rw [hod] at hok; cases hok
      | some od =>
        rw [hod] at hok
        dsimp only at hok
        by_cases hoe : od = ""
        · rw [if_pos hoe] at hok; cases hok
        · rw [if_neg hoe] at hok
          by_cases ht1 : (r.type == some "1" && !rd_truthy r) = true
          · rw [if_pos ht1] at hok; cases hok
          · rw [if_neg ht1] at hok
            split at hok
            · cases hok
            · injection hok with hok
              subst hok
              exact ⟨[], by simp, rfl, by simp, by simp⟩

theorem mem_condList {x s : String} {b : Bool} : x ∈ condList b s ↔ b = true ∧ x = s := by
  cases b <;> simp [condList]

theorem mem_serpapi_only_flags {r : Request} {x : String} (hx : x ∈ serpapi_only_flags r) :
    ((r.deep_search == some true) = true ∧ x = "deep_search (SerpApi-only)") ∨
    ((r.show_hidden == some true) = true ∧ x = "show_hidden (SerpApi-only)") ∨
    ((match r.bags with | some b => b != 0 | none => false) = true ∧
      x = "bags (no URL equivalent)") ∨
    (r.max_price.isSome = true ∧ x = "max_price (no URL equivalent)") ∨
    (r.sort_by.isSome = true ∧ x = "sort_by (no URL equivalent)") ∨
    (r.emissions.isSome = true ∧ x = "emissions (no URL equivalent)") ∨
    (opt_str_truthy r.layover_duration = true ∧ x = "layover_duration (no URL equivalent)") ∨
    (opt_str_truthy r.exclude_conns = true ∧ x = "exclude_conns (no URL equivalent)") ∨
    (r.max_duration.isSome = true ∧ x = "max_duration (no URL equivalent)") ∨
    (opt_str_truthy r.departure_token = true ∧
      x = "departure_token (result-navigation, SerpApi-only)") ∨
    (opt_str_truthy r.booking_token = true ∧
      x = "booking_token (booking step, SerpApi-only)") := by
  simp only [serpapi_only_flags, List.mem_append, mem_condList, or_assoc] at hx
  exact hx

theorem csv_ne_nil_some {o : Option String} (h : csv_to_list o ≠ []) :
    ∃ s, o = some s ∧ s ≠ "" := by
  cases o with
  | none => simp [csv_to_list] at h
  | some s =>
    refine ⟨s, rfl, ?_⟩
    intro he
    rw [he] at h
    simp [csv_to_list] at h

theorem fb_entry_of_ne {k : String} {v : Val} (h : v ≠ Val.str "") :
    fb_entry k (some v) = [(k, v)] := by
  simp [fb_entry, h]

/-- C8: the compiler is a pure function (identical inputs give identical
output), and the global unmatched list of every successful result is
deduplicated and sorted. -/
theorem C8_idempotent_sorted_global (caps : EncoderCaps) (tok : TFSArgs → String)
    (r : Request) (res : BuildResult) (hok : build_gf_urls caps tok r = .ok res) :
    build_gf_urls caps tok r = build_gf_urls caps tok r ∧
    res.unmatched_global.Sorted (· ≤ ·) ∧
    res.unmatched_global.Nodup := by
  obtain ⟨covg, hug, _, _, _⟩ := build_ok_shape hok
  exact ⟨rfl, hug ▸ sort_dedup_sorted _, hug ▸ sort_dedup_nodup _⟩

def reqC8 : Request :=
  { departure_id := some "SYD", arrival_id := some "MEL",
    outbound_date := some "2025-08-15", max_price := some 100,
    deep_search := some true }

set_option maxHeartbeats 2000000 in
/-- Witness for C8 at a concrete request carrying two serpapi-only fields. -/
theorem C8_idempotent_sorted_global_witness :
    build_gf_urls capsAll tokT reqC8 = build_gf_urls capsAll tokT reqC8 ∧
    (resOf (build_gf_urls capsAll tokT reqC8)).unmatched_global.Sorted (· ≤ ·) ∧
    (resOf (build_gf_urls capsAll tokT reqC8)).unmatched_global.Nodup := by
  have hok : build_gf_urls capsAll tokT reqC8 = .ok (resOf (build_gf_urls capsAll tokT reqC8)) := by
    rfl
  exact C8_idempotent_sorted_global capsAll tokT reqC8 _ hok

theorem opt_str_truthy_some {o : Option String} (h : opt_str_truthy o = true) :
    ∃ s, o = some s ∧ s ≠ "" := by
  cases o with
  | none => cases h
  | some s =>
    refine ⟨s, rfl, ?_⟩
    simpa [opt_str_truthy] using h

theorem mc_truthy_some {m : Option (String × Option JVal)} (h : mc_truthy m = true) :
    ∃ raw pj, m = some (raw, pj) ∧ raw ≠ "" := by
  cases m with
  | none => cases h
  | some p =>
    obtain ⟨raw, pj⟩ := p
    refine ⟨raw, pj, rfl, ?_⟩
    simpa [mc_truthy] using h

/-- Case analysis for membership in the global unmatched list of a successful
result: an entry is one of the three multi-city-arm strings (with its guard)
or one of the serpapi-only flag entries. -/
theorem mem_ug_cases {caps : EncoderCaps} {tok : TFSArgs → String} {r : Request}
    {res : BuildResult} (hok : build_gf_urls caps tok r = .ok res) {x : String}
    (hmem : x ∈ res.unmatched_global) :
    ((x = inc_ns_entry ∧ csv_to_list r.include_airlines ≠ []) ∨
     (x = exc_ns_entry ∧ csv_to_list r.exclude_airlines ≠ []) ∨
     (x = mc_entry_str ∧ mc_truthy r.multi_city_json = true)) ∨
    x ∈ serpapi_only_flags r := by
  obtain ⟨covg, hug, _, htr, hcov⟩ := build_ok_shape hok
  rw [hug] at hmem
  rcases List.mem_append.mp (mem_sort_dedup.mp hmem) with hc | hf
  · left
    have hmc := htr (by intro h0; rw [h0] at hc; cases hc)
    rcases hcov x hc with ⟨he, hne⟩ | ⟨he, hne⟩ | he
    · exact Or.inl ⟨he, hne⟩
    · exact Or.inr (Or.inl ⟨he, hne⟩)
    · exact Or.inr (Or.inr ⟨he, hmc⟩)
  · right; exact hf

/-- C7 (amended): every entry of the global unmatched set corresponds to a
caller-supplied field that is present verbatim in the fallback mapping,
except that a field supplied as the empty string (`sort_by`, `emissions`) is
recorded as unmatched yet omitted from the fallback. -/
theorem C7_unmatched_in_fallback (caps : EncoderCaps) (tok : TFSArgs → String)
    (r : Request) (res : BuildResult) (hok : build_gf_urls caps tok r = .ok res) :
    ("deep_search (SerpApi-only)" ∈ res.unmatched_global →
      ("deep_search", Val.bool true) ∈ res.serpapi_fallback) ∧
    ("show_hidden (SerpApi-only)" ∈ res.unmatched_global →
      ("show_hidden", Val.bool true) ∈ res.serpapi_fallback) ∧
    ("bags (no URL equivalent)" ∈ res.unmatched_global →
      ∃ n, r.bags = some n ∧ ("bags", Val.int n) ∈ res.serpapi_fallback) ∧
    ("max_price (no URL equivalent)" ∈ res.unmatched_global →
      ∃ n, r.max_price = some n ∧ ("max_price", Val.int n) ∈ res.serpapi_fallback) ∧
    ("sort_by (no URL equivalent)" ∈ res.unmatched_global →
      ∃ s, r.sort_by = some s ∧ (s ≠ "" → ("sort_by", Val.str s) ∈ res.serpapi_fallback)) ∧
    ("emissions (no URL equivalent)" ∈ res.unmatched_global →
      ∃ s, r.emissions = some s ∧ (s ≠ "" → ("emissions", Val.str s) ∈ res.serpapi_fallback)) ∧
    ("layover_duration (no URL equivalent)" ∈ res.unmatched_global →
      ∃ s, r.layover_duration = some s ∧ ("layover_duration", Val.str s) ∈ res.serpapi_fallback) ∧
    ("exclude_conns (no URL equivalent)" ∈ res.unmatched_global →
      ∃ s, r.exclude_conns = some s ∧ ("exclude_conns", Val.str s) ∈ res.serpapi_fallback) ∧
    ("max_duration (no URL equivalent)" ∈ res.unmatched_global →
      ∃ n, r.max_duration = some n ∧ ("max_duration", Val.int n) ∈ res.serpapi_fallback) ∧
    ("departure_token (result-navigation, SerpApi-only)" ∈ res.unmatched_global →
      ∃ s, r.departure_token = some s ∧ ("departure_token", Val.str s) ∈ res.serpapi_fallback) ∧
    ("booking_token (booking step, SerpApi-only)" ∈ res.unmatched_global →
      ∃ s, r.booking_token = some s ∧ ("booking_token", Val.str s) ∈ res.serpapi_fallback) ∧
    (inc_ns_entry ∈ res.unmatched_global →
      ∃ s, r.include_airlines = some s ∧ ("include_airlines", Val.str s) ∈ res.serpapi_fallback) ∧
    (exc_ns_entry ∈ res.unmatched_global →
      ∃ s, r.exclude_airlines = some s ∧ ("exclude_airlines", Val.str s) ∈ res.serpapi_fallback) ∧
    (mc_entry_str ∈ res.unmatched_global →
      ∃ raw pj, r.multi_city_json = some (raw, pj) ∧
        ("multi_city_json", Val.str raw) ∈ res.serpapi_fallback) := by
  obtain ⟨covg, hug, hfb, htr, hcov⟩ := build_ok_shape hok
  refine ⟨?_, ?_, ?_, ?_, ?_, ?_, ?_, ?_, ?_, ?_, ?_, ?_, ?_, ?_⟩
  · intro hmem
    rcases mem_ug_cases hok hmem with (⟨he, _⟩ | ⟨he, _⟩ | ⟨he, _⟩) | hf
    · exact absurd he (by decide)
    · exact absurd he (by decide)
    · exact absurd he (by decide)
    · rcases mem_serpapi_only_flags hf with h|h|h|h|h|h|h|h|h|h|h <;>
        first
          | exact absurd h.2 (by decide)
          | (have hn : r.deep_search = some true := by simpa using h.1
             rw [hfb]
             simp [build_serpapi_params, fb_entry, hn, List.mem_append])
  · intro hmem
    rcases mem_ug_cases hok hmem with (⟨he, _⟩ | ⟨he, _⟩ | ⟨he, _⟩) | hf
    · exact absurd he (by decide)
    · exact absurd he (by decide)
    · exact absurd he (by decide)
    · rcases mem_serpapi_only_flags hf with h|h|h|h|h|h|h|h|h|h|h <;>
        first
          | exact absurd h.2 (by decide)
          | (have hn : r.show_hidden = some true := by simpa using h.1
             rw [hfb]
             simp [build_serpapi_params, fb_entry, hn, List.mem_append])
  · intro hmem
    rcases mem_ug_cases hok hmem with (⟨he, _⟩ | ⟨he, _⟩ | ⟨he, _⟩) | hf
    · exact absurd he (by decide)
    · exact absurd he (by decide)
    · exact absurd he (by decide)
    · rcases mem_serpapi_only_flags hf with h|h|h|h|h|h|h|h|h|h|h <;>
        first
          | exact absurd h.2 (by decide)
          | (cases hb : r.bags with
             | none => rw [hb] at h; exact absurd h.1 (by simp)
             | some n =>
                refine ⟨n, rfl, ?_⟩
                rw [hfb]
                simp [build_serpapi_params, fb_entry, hb, List.mem_append])
  · intro hmem
    rcases mem_ug_cases hok hmem with (⟨he, _⟩ | ⟨he, _⟩ | ⟨he, _⟩) | hf
    · exact absurd he (by decide)
    · exact absurd he (by decide)
    · exact absurd he (by decide)
    · rcases mem_serpapi_only_flags hf with h|h|h|h|h|h|h|h|h|h|h <;>
        first
          | exact absurd h.2 (by decide)
          | (obtain ⟨n, hn⟩ := Option.isSome_iff_exists.mp h.1
             refine ⟨n, hn, ?_⟩
             rw [hfb]
             simp [build_serpapi_params, fb_entry, hn, List.mem_append])
  · intro hmem
    rcases mem_ug_cases hok hmem with (⟨he, _⟩ | ⟨he, _⟩ | ⟨he, _⟩) | hf
    · exact absurd he (by decide)
    · exact absurd he (by decide)
    · exact absurd he (by decide)
    · rcases mem_serpapi_only_flags hf with h|h|h|h|h|h|h|h|h|h|h <;>
        first
          | exact absurd h.2 (by decide)
          | (obtain ⟨s, hn⟩ := Option.isSome_iff_exists.mp h.1
             refine ⟨s, hn, fun hne => ?_⟩
             rw [hfb]
             simp [build_serpapi_params, fb_entry, hn, hne, List.mem_append])
  · intro hmem
    rcases mem_ug_cases hok hmem with (⟨he, _⟩ | ⟨he, _⟩ | ⟨he, _⟩) | hf
    · exact absurd he (by decide)
    · exact absurd he (by decide)
    · exact absurd he (by decide)
    · rcases mem_serpapi_only_flags hf with h|h|h|h|h|h|h|h|h|h|h <;>
        first
          | exact absurd h.2 (by decide)
          | (obtain ⟨s, hn⟩ := Option.isSome_iff_exists.mp h.1
             refine ⟨s, hn, fun hne => ?_⟩
             rw [hfb]
             simp [build_serpapi_params, fb_entry, hn, hne, List.mem_append])
  · intro hmem
    rcases mem_ug_cases hok hmem with (⟨he, _⟩ | ⟨he, _⟩ | ⟨he, _⟩) | hf
    · exact absurd he (by decide)
    · exact absurd he (by decide)
    · exact absurd he (by decide)
    · rcases mem_serpapi_only_flags hf with h|h|h|h|h|h|h|h|h|h|h <;>
        first
          | exact absurd h.2 (by decide)
          | (obtain ⟨s, hn, hne⟩ := opt_str_truthy_some h.1
             refine ⟨s, hn, ?_⟩
             rw [hfb]
             simp [build_serpapi_params, fb_entry, hn, hne, List.mem_append])
  · intro hmem
    rcases mem_ug_cases hok hmem with (⟨he, _⟩ | ⟨he, _⟩ | ⟨he, _⟩) | hf
    · exact absurd he (by decide)
    · exact absurd he (by decide)
    · exact absurd he (by decide)
    · rcases mem_serpapi_only_flags hf with h|h|h|h|h|h|h|h|h|h|h <;>
        first
          | exact absurd h.2 (by decide)
          | (obtain ⟨s, hn, hne⟩ := opt_str_truthy_some h.1
             refine ⟨s, hn, ?_⟩
             rw [hfb]
             simp [build_serpapi_params, fb_entry, hn, hne, List.mem_append])
  · intro hmem
    rcases mem_ug_cases hok hmem with (⟨he, _⟩ | ⟨he, _⟩ | ⟨he, _⟩) | hf
    · exact absurd he (by decide)
    · exact absurd he (by decide)
    · exact absurd he (by decide)
    · rcases mem_serpapi_only_flags hf with h|h|h|h|h|h|h|h|h|h|h <;>
        first
          | exact absurd h.2 (by decide)
          | (obtain ⟨n, hn⟩ := Option.isSome_iff_exists.mp h.1
             refine ⟨n, hn, ?_⟩
             rw [hfb]
             simp [build_serpapi_params, fb_entry, hn, List.mem_append])
  · intro hmem
    rcases mem_ug_cases hok hmem with (⟨he, _⟩ | ⟨he, _⟩ | ⟨he, _⟩) | hf
    · exact absurd he (by decide)
    · exact absurd he (by decide)
    · exact absurd he (by decide)
    · rcases mem_serpapi_only_flags hf with h|h|h|h|h|h|h|h|h|h|h <;>
        first
          | exact absurd h.2 (by decide)
          | (obtain ⟨s, hn, hne⟩ := opt_str_truthy_some h.1
             refine ⟨s, hn, ?_⟩
             rw [hfb]
             simp [build_serpapi_params, fb_entry, hn, hne, List.mem_append])
  · intro hmem
    rcases mem_ug_cases hok hmem with (⟨he, _⟩ | ⟨he, _⟩ | ⟨he, _⟩) | hf
    · exact absurd he (by decide)
    · exact absurd he (by decide)
    · exact absurd he (by decide)
    · rcases mem_serpapi_only_flags hf with h|h|h|h|h|h|h|h|h|h|h <;>
        first
          | exact absurd h.2 (by decide)
          | (obtain ⟨s, hn, hne⟩ := opt_str_truthy_some h.1
             refine ⟨s, hn, ?_⟩
             rw [hfb]
             simp [build_serpapi_params, fb_entry, hn, hne, List.mem_append])
  · intro hmem
    rcases mem_ug_cases hok hmem with (⟨he, hne⟩ | ⟨he, _⟩ | ⟨he, _⟩) | hf
    · obtain ⟨s, hn, hs⟩ := csv_ne_nil_some hne
      refine ⟨s, hn, ?_⟩
      rw [hfb]
      simp [build_serpapi_params, fb_entry, hn, hs, List.mem_append]
    · exact absurd he (by decide)
    · exact absurd he (by decide)
    · rcases mem_serpapi_only_flags hf with h|h|h|h|h|h|h|h|h|h|h <;>
        exact absurd h.2 (by decide)
  · intro hmem
    rcases mem_ug_cases hok hmem with (⟨he, _⟩ | ⟨he, hne⟩ | ⟨he, _⟩) | hf
    · exact absurd he (by decide)
    · obtain ⟨s, hn, hs⟩ := csv_ne_nil_some hne
      refine ⟨s, hn, ?_⟩
      rw [hfb]
      simp [build_serpapi_params, fb_entry, hn, hs, List.mem_append]
    · exact absurd he (by decide)
    · rcases mem_serpapi_only_flags hf with h|h|h|h|h|h|h|h|h|h|h <;>
        exact absurd h.2 (by decide)
  · intro hmem
    rcases mem_ug_cases hok hmem with (⟨he, _⟩ | ⟨he, _⟩ | ⟨he, hmc⟩) | hf
    · exact absurd he (by decide)
    · exact absurd he (by decide)
    · obtain ⟨raw, pj, hn, hs⟩ := mc_truthy_some hmc
      refine ⟨raw, pj, hn, ?_⟩
      rw [hfb]
      simp [build_serpapi_params, fb_entry, hn, hs, List.mem_append]
    · rcases mem_serpapi_only_flags hf with h|h|h|h|h|h|h|h|h|h|h <;>
        exact absurd h.2 (by decide)

def reqC7 : Request :=
  { departure_id := some "SYD", arrival_id := some "MEL",
    outbound_date := some "2025-08-15", sort_by := some "" }

set_option maxHeartbeats 2000000 in
/-- Counterexample to C7 as stated: `sort_by=""` is placed in the global
unmatched set but is absent from the fallback mapping. -/
theorem C7_counterexample :
    "sort_by (no URL equivalent)" ∈ (resOf (build_gf_urls capsAll tokT reqC7)).unmatched_global ∧
    ((resOf (build_gf_urls capsAll tokT reqC7)).serpapi_fallback.all
      (fun kv => kv.1 != "sort_by")) = true := by
  decide

def reqC7w : Request :=
  { departure_id := some "SYD", arrival_id := some "MEL",
    outbound_date := some "2025-08-15", max_price := some 100 }

set_option maxHeartbeats 2000000 in
/-- Witness for the amended C7: `max_price=100` is globally unmatched and
appears verbatim in the fallback. -/
theorem C7_unmatched_in_fallback_witness :
    ("max_price", Val.int 100) ∈ (resOf (build_gf_urls capsAll tokT reqC7w)).serpapi_fallback := by
  have hok : build_gf_urls capsAll tokT reqC7w =
      .ok (resOf (build_gf_urls capsAll tokT reqC7w)) := by rfl
  obtain ⟨n, hn, hmem⟩ :=
    (C7_unmatched_in_fallback capsAll tokT reqC7w _ hok).2.2.2.1 (by decide)
  have he : some (100 : Int) = some n := hn
  injection he with he
  rw [← he] at hmem
  exact hmem

/-! ## Structural-validation predicates (for the error-surface claim) -/

/-- The single-pair structural failure conditions of `build_gf_urls`
(lines 392–399): empty origin/destination list, falsy outbound date,
round-trip type without a truthy return date. -/
def single_bad (r : Request) : Prop :=
  csv_to_list r.departure_id = [] ∨ csv_to_list r.arrival_id = [] ∨
  od_truthy r = false ∨ (r.type = some "1" ∧ rd_truthy r = false)

/-- Whether one parsed multi-city leg carries truthy `departure_id`,
`arrival_id` and `date` fields. -/
def leg_carries (j : JVal) : Bool :=
  match j with
  | .obj kvs => opt_jtruthy (jLookup kvs "departure_id") &&
                opt_jtruthy (jLookup kvs "arrival_id") &&
                opt_jtruthy (jLookup kvs "date")
  | _ => false

/-- The multi-city structural failure conditions: payload absent, falsy,
unparseable, not an array, empty, or containing a leg missing one of its
three required sub-fields. -/
def mc_bad (r : Request) : Prop :=
  match r.multi_city_json with
  | some (raw, some (.arr xs)) => raw = "" ∨ xs = [] ∨ ∃ x ∈ xs, leg_carries x = false
  | _ => True

/-- The structural failure conditions of the claim, for whichever arm the
request selects. -/
def structural_bad (r : Request) : Prop :=
  match (r.type == some "3" || mc_truthy r.multi_city_json) with
  | true => mc_bad r
  | false => single_bad r

/-- A multi-city leg value whose truthy fields are well-formed strings (the
regime in which the code's own `ValueError` validators, rather than Python
`TypeError`/`AttributeError` crashes, decide the outcome). -/
def leg_wt (j : JVal) : Prop :=
  match j with
  | .obj kvs =>
      (∀ v, jLookup kvs "departure_id" = some v → jTruthy v = true →
        ∃ s, v = .str s ∧ is_airport_or_place s = true) ∧
      (∀ v, jLookup kvs "arrival_id" = some v → jTruthy v = true →
        ∃ s, v = .str s ∧ is_airport_or_place s = true) ∧
      (∀ v, jLookup kvs "date" = some v → jTruthy v = true →
        ∃ s, v = .str s ∧ iso_date_valid s = true)
  | _ => False

/-- All codes, dates and multi-city payload values of the request are
well-formed, so only structural validation can fail. -/
def well_typed (r : Request) : Prop :=
  ((r.type == some "3" || mc_truthy r.multi_city_json) = false →
    (∀ c ∈ csv_to_list r.departure_id, is_airport_or_place c = true) ∧
    (∀ c ∈ csv_to_list r.arrival_id, is_airport_or_place c = true) ∧
    (∀ s, r.outbound_date = some s → s ≠ "" → iso_date_valid s = true) ∧
    (∀ s, r.return_date = some s → s ≠ "" → iso_date_valid s = true)) ∧
  ((r.type == some "3" || mc_truthy r.multi_city_json) = true →
    ∀ raw xs, r.multi_city_json = some (raw, some (.arr xs)) → ∀ x ∈ xs, leg_wt x)

theorem validate_code_json_ok {v : Option JVal} {s : String}
    (h : validate_code_json v = .ok s) : is_airport_or_place s = true := by
  rcases v with _ | j
  · cases h
  · cases j with
    | str t =>
      by_cases ht : is_airport_or_place t = true
      · simp only [validate_code_json, ht, if_true, Except.ok.injEq] at h
        rw [← h]; exact ht
      · simp only [validate_code_json, ht, if_false, Bool.false_eq_true] at h
        cases h
    | null => cases h
    | bool b => cases h
    | num n => cases h
    | arr xs => cases h
    | obj kvs => cases h

theorem validate_date_json_ok {v : Option JVal} {s : String}
    (h : validate_date_json v = .ok s) : iso_date_valid s = true := by
  rcases v with _ | j
  · cases h
  · cases j with
    | str t =>
      by_cases ht : iso_date_valid t = true
      · simp only [validate_date_json, ht, if_true, Except.ok.injEq] at h
        rw [← h]; exact ht
      · simp only [validate_date_json, ht, if_false, Bool.false_eq_true] at h
        cases h
    | null => cases h
    | bool b => cases h
    | num n => cases h
    | arr xs => cases h
    | obj kvs => cases h

theorem opt_jtruthy_some {o : Option JVal} (h : opt_jtruthy o = true) :
    ∃ v, o = some v ∧ jTruthy v = true := by
  cases o with
  | none => cases h
  | some v => exact ⟨v, rfl, h⟩

theorem isEmpty_false_of_ne {l : List String} (h : l ≠ []) : l.isEmpty = false := by
  cases l with
  | nil => exact absurd rfl h
  | cons x xs => rfl

theorem pass_return_date_some {r : Request} {s : String}
    (h : pass_return_date r = some s) : r.return_date = some s := by
  unfold pass_return_date at h
  by_cases hc : (r.type == some "1" || (rd_truthy r && r.type == none)) = true
  · rw [if_pos hc] at h; exact h
  · rw [if_neg hc] at h; cases h

theorem extract_mc_legs_valid :
    ∀ {xs : List JVal} {ls : List MCLeg}, extract_mc_legs xs = .ok ls →
      ∀ l ∈ ls, is_airport_or_place l.dep = true ∧ is_airport_or_place l.arr = true ∧
        iso_date_valid l.date = true := by
  intro xs
  induction xs with
  | nil =>
    intro ls h l hl
    simp only [extract_mc_legs, Except.ok.injEq] at h
    subst h
    cases hl
  | cons x xs ih =>
    intro ls h l hl
    unfold extract_mc_legs at h
    cases h1 : jGet x "departure_id" with
    | error e => rw [h1] at h; cases h
    | ok d? =>
      rw [h1] at h
      cases h2 : jGet x "arrival_id" with
      | error e => rw [h2] at h; cases h
      | ok a? =>
        rw [h2] at h
        cases h3 : jGet x "date" with
        | error e => rw [h3] at h; cases h
        | ok t? =>
          rw [h3] at h
          dsimp only at h
          by_cases hc : (!(opt_jtruthy d? && opt_jtruthy a? && opt_jtruthy t?)) = true
          · rw [if_pos hc] at h; cases h
          · rw [if_neg hc] at h
            cases h4 : validate_code_json d? with
            | error e => rw [h4] at h; cases h
            | ok d =>
              rw [h4] at h
              cases h5 : validate_code_json a? with
              | error e => rw [h5] at h; cases h
              | ok a =>
                rw [h5] at h
                cases h6 : validate_date_json t? with
                | error e => rw [h6] at h; cases h
                | ok t =>
                  rw [h6] at h
                  cases h7 : extract_mc_legs xs with
                  | error e => rw [h7] at h; cases h
                  | ok rest =>
                    rw [h7] at h
                    simp only [Except.ok.injEq] at h
                    subst h
                    rcases List.mem_cons.mp hl with rfl | hl
                    · exact ⟨validate_code_json_ok h4, validate_code_json_ok h5,
                        validate_date_json_ok h6⟩
                    · exact ih h7 l hl

theorem extract_mc_legs_ok_iff :
    ∀ (xs : List JVal), (∀ x ∈ xs, leg_wt x) →
      ((∃ ls, extract_mc_legs xs = .ok ls) ↔ ∀ x ∈ xs, leg_carries x = true) := by
  intro xs
  induction xs with
  | nil =>
    intro _
    constructor
    · intro _ x hx; cases hx
    · intro _; exact ⟨[], rfl⟩
  | cons x xs ih =>
    intro hwt
    have hx := hwt x (by simp)
    have ihx := ih (fun y hy => hwt y (by simp [hy]))
    cases x with
    | null => exact hx.elim
    | bool b => exact hx.elim
    | num n => exact hx.elim
    | str s => exact hx.elim
    | arr ys => exact hx.elim
    | obj kvs =>
    obtain ⟨hw1, hw2, hw3⟩ := hx
    constructor
    · intro ⟨ls, h⟩ y hy
      unfold extract_mc_legs at h
      simp only [jGet] at h
      by_cases hc : (!(opt_jtruthy (jLookup kvs "departure_id") &&
          opt_jtruthy (jLookup kvs "arrival_id") && opt_jtruthy (jLookup kvs "date"))) = true
      · rw [if_pos hc] at h; cases h
      · rw [if_neg hc] at h
        rcases List.mem_cons.mp hy with rfl | hy
        · simp only [leg_carries]
          simpa using hc
        · cases h4 : validate_code_json (jLookup kvs "departure_id") with
          | error e => rw [h4] at h; cases h
          | ok d =>
            rw [h4] at h
            cases h5 : validate_code_json (jLookup kvs "arrival_id") with
            | error e => rw [h5] at h; cases h
            | ok a =>
              rw [h5] at h
              cases h6 : validate_date_json (jLookup kvs "date") with
              | error e => rw [h6] at h; cases h
              | ok t =>
                rw [h6] at h
                cases h7 : extract_mc_legs xs with
                | error e => rw [h7] at h; cases h
                | ok rest => exact (ihx.mp ⟨rest, h7⟩) y hy
    · intro hall
      have hcx := hall (JVal.obj kvs) (by simp)
      simp only [leg_carries] at hcx
      obtain ⟨h1, h2⟩ := Bool.and_eq_true_iff.mp hcx
      obtain ⟨h1a, h1b⟩ := Bool.and_eq_true_iff.mp h1
      obtain ⟨v1, hv1, ht1⟩ := opt_jtruthy_some h1a
      obtain ⟨v2, hv2, ht2⟩ := opt_jtruthy_some h1b
      obtain ⟨v3, hv3, ht3⟩ := opt_jtruthy_some h2
      obtain ⟨s1, rfl, hok1⟩ := hw1 v1 hv1 ht1
      obtain ⟨s2, rfl, hok2⟩ := hw2 v2 hv2 ht2
      obtain ⟨s3, rfl, hok3⟩ := hw3 v3 hv3 ht3
      obtain ⟨rest, hrest⟩ := ihx.mpr (fun y hy => hall y (by simp [hy]))
      refine ⟨⟨s1, s2, s3⟩ :: rest, ?_⟩
      unfold extract_mc_legs
      simp only [jGet]
      rw [hv1, hv2, hv3]
      simp only [opt_jtruthy, ht1, ht2, ht3, Bool.and_self, Bool.not_true,
        Bool.false_eq_true, if_false]
      simp only [validate_code_json, validate_date_json, hok1, hok2, hok3, if_true]
      rw [hrest]

theorem except_not_ok_iff {β : Type} (x : Except Err β) :
    (¬ ∃ v, x = .ok v) ↔ ∃ e, x = .error e := by
  cases x with
  | error e => simp
  | ok v => simp

theorem mem_dropLast {α : Type} : ∀ {l : List α} {x : α}, x ∈ l.dropLast → x ∈ l := by
  intro l
  induction l with
  | nil => intro x h; cases h
  | cons a t ih =>
    intro x h
    cases t with
    | nil => cases h
    | cons b t2 =>
      rcases List.mem_cons.mp h with rfl | h2
      · simp
      · exact List.mem_cons_of_mem _ (ih h2)

theorem mc_legs_json_ok_inv {r : Request} {xs : List JVal} (h : mc_legs_json r = .ok xs) :
    ∃ raw, r.multi_city_json = some (raw, some (.arr xs)) ∧ raw ≠ "" ∧ xs ≠ [] := by
  unfold mc_legs_json at h
  rcases hj : r.multi_city_json with _ | ⟨raw, pj⟩ <;> rw [hj] at h
  · cases h
  · dsimp only at h
    by_cases hr : (raw != "") = true
    · rw [if_pos hr] at h
      rcases pj with _ | j
      · cases h
      · cases j with
        | arr ys =>
          rcases ys with _ | ⟨y, ys2⟩
          · cases h
          · simp only [Except.ok.injEq] at h
            subst h
            exact ⟨raw, rfl, by simpa using hr, by simp⟩
        | null => cases h
        | bool b => cases h
        | num n => cases h
        | str s => cases h
        | obj kvs => cases h
    · rw [if_neg hr] at h; cases h

theorem build_multi_city_core_ok (caps : EncoderCaps) (tok : TFSArgs → String) (r : Request)
    (legs : List MCLeg)
    (hv : ∀ l ∈ legs, is_airport_or_place l.dep = true ∧ is_airport_or_place l.arr = true ∧
      iso_date_valid l.date = true) :
    ∃ res, build_multi_city_core caps tok r legs = .ok res := by
  simp only [build_multi_city_core]
  split
  · exact ⟨_, rfl⟩
  · obtain ⟨links, hl⟩ := build_links_loop_total
      (f := fun l => build_single_url caps tok (mc_single_req r l))
      (l := legs.dropLast)
      (fun l hlm =>
        ⟨_, build_single_url_ok (hv l (mem_dropLast hlm)).1 (hv l (mem_dropLast hlm)).2.1
          (hv l (mem_dropLast hlm)).2.2 (fun hcon => Bool.noConfusion hcon)⟩)
    rw [hl]
    exact ⟨_, rfl⟩

theorem build_single_path_ok_iff (caps : EncoderCaps) (tok : TFSArgs → String) (r : Request)
    (hc1 : ∀ c ∈ csv_to_list r.departure_id, is_airport_or_place c = true)
    (hc2 : ∀ c ∈ csv_to_list r.arrival_id, is_airport_or_place c = true)
    (hc3 : ∀ s, r.outbound_date = some s → s ≠ "" → iso_date_valid s = true)
    (hc4 : ∀ s, r.return_date = some s → s ≠ "" → iso_date_valid s = true) :
    (∃ res, build_single_path caps tok r = .ok res) ↔ ¬ single_bad r := by
  constructor
  · rintro ⟨res, hok⟩ hbad
    unfold build_single_path at hok
    rcases hbad with hb | hb | hb | ⟨hb1, hb2⟩
    · rw [hb] at hok; simp at hok
    · rw [hb] at hok; simp at hok
    · by_cases hde : ((csv_to_list r.departure_id).isEmpty ||
          (csv_to_list r.arrival_id).isEmpty) = true
      · rw [if_pos hde] at hok; cases hok
      · rw [if_neg hde] at hok
        unfold od_truthy at hb
        cases hod : r.outbound_date with
        | none => rw [hod] at hok; cases hok
        | some od =>
          rw [hod] at hb hok
          dsimp only at hb hok
          have hoe : od = "" := by simpa using hb
          rw [if_pos hoe] at hok
          cases hok
    · by_cases hde : ((csv_to_list r.departure_id).isEmpty ||
          (csv_to_list r.arrival_id).isEmpty) = true
      · rw [if_pos hde] at hok; cases hok
      · rw [if_neg hde] at hok
        cases hod : r.outbound_date with
        | none => rw [hod] at hok; cases hok
        | some od =>
          rw [hod] at hok
          dsimp only at hok
          by_cases hoe : od = ""
          · rw [if_pos hoe] at hok; cases hok
          · rw [if_neg hoe] at hok
            have ht : (r.type == some "1" && !rd_truthy r) = true := by
              simp [hb1, hb2]
            rw [if_pos ht] at hok
            cases hok
  · intro hbad
    rw [single_bad] at hbad
    push_neg at hbad
    obtain ⟨h1, h2, h3, h4⟩ := hbad
    have h3' : od_truthy r = true := by
      revert h3; cases od_truthy r <;> simp
    simp only [build_single_path]
    rw [isEmpty_false_of_ne h1, isEmpty_false_of_ne h2]
    rw [if_neg (by simp)]
    unfold od_truthy at h3'
    cases hod : r.outbound_date with
    | none => rw [hod] at h3'; simp at h3'
    | some od =>
      rw [hod] at h3'
      dsimp only at h3'
      have hoe : ¬ od = "" := by simpa using h3'
      dsimp only
      rw [if_neg hoe]
      have ht : (r.type == some "1" && !rd_truthy r) = false := by
        by_cases hty : r.type = some "1"
        · have hrd : rd_truthy r = true := by
            rcases Bool.eq_false_or_eq_true (rd_truthy r) with h | h
            · exact h
            · exact absurd h (h4 hty)
          simp [hty, hrd]
        · have : (r.type == some "1") = false := by
            simpa using hty
          simp [this]
      rw [ht]
      rw [if_neg (by simp)]
      obtain ⟨links, hl⟩ := build_links_loop_total
        (f := fun p => build_single_url caps tok (mk_single_req r od p.1 p.2))
        (l := pairs_of (csv_to_list r.departure_id) (csv_to_list r.arrival_id))
        (fun p hp =>
          ⟨_, build_single_url_ok (q := mk_single_req r od p.1 p.2)
            (hc1 p.1 (pairs_of_mem hp).1) (hc2 p.2 (pairs_of_mem hp).2)
            (hc3 od hod hoe)
            (fun hneed => by
              cases hpr : pass_return_date r with
              | none =>
                rw [show (mk_single_req r od p.1 p.2).return_date = pass_return_date r from rfl,
                  hpr] at hneed
                cases hneed
              | some s =>
                have hrs := pass_return_date_some hpr
                rw [show (mk_single_req r od p.1 p.2).return_date = pass_return_date r from rfl,
                  hpr] at hneed ⊢
                have hs : s ≠ "" := by simpa [rd_needs_validation] using hneed
                simpa using hc4 s hrs hs)⟩)
      rw [hl]
      exact ⟨_, rfl⟩

theorem build_multi_city_ok_iff (caps : EncoderCaps) (tok : TFSArgs → String) (r : Request)
    (hwt : ∀ raw xs, r.multi_city_json = some (raw, some (.arr xs)) → ∀ x ∈ xs, leg_wt x) :
    (∃ res, build_multi_city caps tok r = .ok res) ↔ ¬ mc_bad r := by
  constructor
  · rintro ⟨res, hok⟩ hbad
    unfold build_multi_city at hok
    cases hlj : mc_legs_json r with
    | error e => rw [hlj] at hok; cases hok
    | ok xs =>
      rw [hlj] at hok
      dsimp only at hok
      obtain ⟨raw, hj, hraw, hxs⟩ := mc_legs_json_ok_inv hlj
      unfold mc_bad at hbad
      rw [hj] at hbad
      dsimp only at hbad
      rcases hbad with hb | hb | ⟨x, hx, hcar⟩
      · exact hraw hb
      · exact hxs hb
      · cases hexl : extract_mc_legs xs with
        | error e => rw [hexl] at hok; cases hok
        | ok legs =>
          have hall := (extract_mc_legs_ok_iff xs (hwt raw xs hj)).mp ⟨legs, hexl⟩
          rw [hall x hx] at hcar
          cases hcar
  · intro hbad
    unfold mc_bad at hbad
    rcases hj : r.multi_city_json with _ | ⟨raw, pj⟩
    · rw [hj] at hbad; exact absurd trivial hbad
    · rcases pj with _ | j
      · rw [hj] at hbad; exact absurd trivial hbad
      · cases j with
        | arr xs =>
          rw [hj] at hbad
          dsimp only at hbad
          push_neg at hbad
          obtain ⟨hraw, hxs, hcar⟩ := hbad
          have hcar2 : ∀ x ∈ xs, leg_carries x = true := by
            intro x hx
            have := hcar x hx
            revert this
            cases leg_carries x <;> simp
          obtain ⟨ls, hexl⟩ := (extract_mc_legs_ok_iff xs (hwt raw xs hj)).mpr hcar2
          unfold build_multi_city
          have hlj : mc_legs_json r = .ok xs := by
            unfold mc_legs_json
            rw [hj]
            dsimp only
            rw [if_pos (by simpa using hraw)]
            rcases xs with _ | ⟨y, ys⟩
            · exact absurd rfl hxs
            · rfl
          rw [hlj]
          dsimp only
          rw [hexl]
          dsimp only
          exact build_multi_city_core_ok caps tok r ls (extract_mc_legs_valid hexl)
        | null => rw [hj] at hbad; exact absurd trivial hbad
        | bool b => rw [hj] at hbad; exact absurd trivial hbad
        | num n => rw [hj] at hbad; exact absurd trivial hbad
        | str s => rw [hj] at hbad; exact absurd trivial hbad
        | obj kvs => rw [hj] at hbad; exact absurd trivial hbad

/-- C6 (amended): for requests whose codes, dates and multi-city payload
values are all well-formed, `build_gf_urls` raises exactly when a structural
condition holds (empty origin/destination list, missing outbound date,
round-trip type without return date, or a bad multi-city payload); on
malformed codes/dates it additionally raises `InvalidCode`/`InvalidDate`. -/
theorem C6_structural_error_iff (caps : EncoderCaps) (tok : TFSArgs → String) (r : Request)
    (hwt : well_typed r) :
    (∃ e, build_gf_urls caps tok r = .error e) ↔ structural_bad r := by
  by_cases hmc : (r.type == some "3" || mc_truthy r.multi_city_json) = true
  · have hb1 : build_gf_urls caps tok r = build_multi_city caps tok r := by
      unfold build_gf_urls; rw [if_pos hmc]
    have hb2 : structural_bad r = mc_bad r := by
      unfold structural_bad; rw [hmc]
    rw [hb1, hb2]
    have hiff := build_multi_city_ok_iff caps tok r
      (fun raw xs hj => hwt.2 hmc raw xs hj)
    constructor
    · rintro ⟨e, he⟩
      by_contra hnb
      obtain ⟨res, hres⟩ := hiff.mpr hnb
      rw [hres] at he
      cases he
    · intro hb
      cases hx : build_multi_city caps tok r with
      | error e => exact ⟨e, rfl⟩
      | ok res => exact absurd hb (hiff.mp ⟨res, hx⟩)
  · have hmc2 : (r.type == some "3" || mc_truthy r.multi_city_json) = false := by
      revert hmc
      cases (r.type == some "3" || mc_truthy r.multi_city_json) <;> simp
    have hb1 : build_gf_urls caps tok r = build_single_path caps tok r := by
      unfold build_gf_urls; rw [if_neg hmc]
    have hb2 : structural_bad r = single_bad r := by
      unfold structural_bad; rw [hmc2]
    rw [hb1, hb2]
    obtain ⟨h1, h2, h3, h4⟩ := hwt.1 hmc2
    have hiff := build_single_path_ok_iff caps tok r h1 h2 h3 h4
    constructor
    · rintro ⟨e, he⟩
      by_contra hnb
      obtain ⟨res, hres⟩ := hiff.mpr hnb
      rw [hres] at he
      cases he
    · intro hb
      cases hx : build_single_path caps tok r with
      | error e => exact ⟨e, rfl⟩
      | ok res => exact absurd hb (hiff.mp ⟨res, hx⟩)

def reqC6 : Request :=
  { departure_id := some "syd", arrival_id := some "MEL",
    outbound_date := some "2025-08-15" }

/-- Counterexample to C6 as stated: a lowercase origin code makes
`build_gf_urls` raise although no structurally required field is missing. -/
theorem C6_counterexample :
    build_gf_urls capsAll tokT reqC6 = .error (.invalidCode "syd") ∧
    ¬ structural_bad reqC6 := by
  constructor
  · rfl
  · intro h
    have h2 : single_bad reqC6 := h
    rcases h2 with hb | hb | hb | ⟨hb1, hb2⟩
    · exact absurd hb (by decide)
    · exact absurd hb (by decide)
    · exact absurd hb (by decide)
    · exact absurd hb1 (by decide)

def reqC6w : Request :=
  { departure_id := some "SYD", arrival_id := some "MEL" }

/-- Witness for the amended C6: a request with no outbound date is structurally
bad and errors. -/
theorem C6_structural_error_iff_witness :
    (∃ e, build_gf_urls capsAll tokT reqC6w = .error e) ↔ structural_bad reqC6w := by
  refine C6_structural_error_iff capsAll tokT reqC6w ⟨fun _ => ?_, fun hcon => ?_⟩
  · refine ⟨by decide, by decide, ?_, ?_⟩
    · intro s h
      exact Option.noConfusion h
    · intro s h
      exact Option.noConfusion h
  · exact absurd hcon (by decide)

instance (r : Request) : Decidable (single_bad r) := by
  unfold single_bad
  infer_instance

/-- The link at index `i` of a successful result (with a dummy default), used
to state concrete witnesses. -/
def linkAt (x : Except Err BuildResult) (i : Nat) : LinkOut :=
  (resOf x).links.getD i ⟨"", ⟨[], [], []⟩⟩

theorem build_single_url_ok_inv {caps : EncoderCaps} {tok : TFSArgs → String} {q : SingleReq}
    {l : LinkOut} (h : build_single_url caps tok q = .ok l) :
    l.coverage = (build_single_core caps q).2 := by
  unfold build_single_url at h
  by_cases h1 : (!is_airport_or_place q.dep) = true
  · rw [if_pos h1] at h; cases h
  · rw [if_neg h1] at h
    by_cases h2 : (!is_airport_or_place q.arr) = true
    · rw [if_pos h2] at h; cases h
    · rw [if_neg h2] at h
      by_cases h3 : (!iso_date_valid q.outbound_date) = true
      · rw [if_pos h3] at h; cases h
      · rw [if_neg h3] at h
        by_cases h4 : (rd_needs_validation q.return_date &&
            !iso_date_valid (q.return_date.getD "")) = true
        · rw [if_pos h4] at h; cases h
        · rw [if_neg h4] at h
          injection h with h
          rw [← h]

/-- Every link of a successful single-pair compilation is the single-URL build
of one (origin, destination) pair of the cartesian product. -/
theorem build_single_path_links {caps : EncoderCaps} {tok : TFSArgs → String} {r : Request}
    {res : BuildResult}
    (hmc : (r.type == some "3" || mc_truthy r.multi_city_json) = false)
    (hok : build_gf_urls caps tok r = .ok res) :
    ∀ l ∈ res.links, ∃ p : String × String, p.1 ∈ csv_to_list r.departure_id ∧
      p.2 ∈ csv_to_list r.arrival_id ∧
      build_single_url caps tok (mk_single_req r (r.outbound_date.getD "") p.1 p.2) = .ok l := by
  simp only [build_gf_urls, hmc, Bool.false_eq_true, if_false] at hok
  simp only [build_single_path] at hok
  by_cases hde : ((csv_to_list r.departure_id).isEmpty || (csv_to_list r.arrival_id).isEmpty) = true
  · rw [if_pos hde] at hok; cases hok
  · rw [if_neg hde] at hok
    cases hod : r.outbound_date with
    | none => rw [hod] at hok; cases hok
    | some od =>
      rw [hod] at hok
      dsimp only at hok
      by_cases hoe : od = ""
      · rw [if_pos hoe] at hok; cases hok
      · rw [if_neg hoe] at hok
        by_cases ht1 : (r.type == some "1" && !rd_truthy r) = true
        · rw [if_pos ht1] at hok; cases hok
        · rw [if_neg ht1] at hok
          cases hloop : build_links_loop
              (fun p => build_single_url caps tok (mk_single_req r od p.1 p.2))
              (pairs_of (csv_to_list r.departure_id) (csv_to_list r.arrival_id)) with
          | error e => rw [hloop] at hok; cases hok
          | ok links =>
            rw [hloop] at hok
            injection hok with hok
            subst hok
            intro l hl
            obtain ⟨p, hp, hfp⟩ := build_links_loop_mem hloop l hl
            exact ⟨p, (pairs_of_mem hp).1, (pairs_of_mem hp).2, by simpa [hod] using hfp⟩

theorem travel_class_unmatched_mem (caps : EncoderCaps) (q : SingleReq) {tc : String}
    (h1 : q.travel_class = some tc) (h2 : tc ≠ "") (h3 : travel_class_map tc = none) :
    ("travel_class (" ++ tc ++ ")") ∈ (build_single_core caps q).2.unmatched := by
  simp only [build_single_core, h1]
  simp [cov_travel_class, h2, h3]

theorem stops_unmatched_mem (caps : EncoderCaps) (q : SingleReq) {st : String}
    (h1 : q.stops = some st) (h3 : stops_map st = none) :
    ("stops (" ++ st ++ ")") ∈ (build_single_core caps q).2.unmatched := by
  simp only [build_single_core, h1]
  simp [stops_resolve, h3]

theorem pass_return_date_none {r : Request} {t : String} (hty : r.type = some t)
    (h1 : t ≠ "1") : pass_return_date r = none := by
  unfold pass_return_date
  rw [if_neg (by simp [hty, h1])]

theorem build_single_core_one_way (caps : EncoderCaps) (q1 q2 : SingleReq)
    (h1 : round_trip_flag q1 = false) (h2 : round_trip_flag q2 = false)
    (hd : q1.dep = q2.dep) (ha : q1.arr = q2.arr) (ho : q1.outbound_date = q2.outbound_date)
    (htc : q1.travel_class = q2.travel_class) (had : q1.adults = q2.adults)
    (hch : q1.children = q2.children) (his : q1.infants_in_seat = q2.infants_in_seat)
    (hil : q1.infants_on_lap = q2.infants_on_lap) (hst : q1.stops = q2.stops)
    (hin : q1.include_airlines = q2.include_airlines)
    (hex : q1.exclude_airlines = q2.exclude_airlines)
    (hot : q1.outbound_times = q2.outbound_times) :
    build_single_core caps q1 = build_single_core caps q2 := by
  simp only [build_single_core, h1, h2, hd, ha, ho, htc, had, hch, his, hil, hst, hin, hex, hot,
    Bool.false_eq_true, if_false, Bool.false_and]

theorem build_single_url_congr (caps : EncoderCaps) (tok : TFSArgs → String) (q1 q2 : SingleReq)
    (hd : q1.dep = q2.dep) (ha : q1.arr = q2.arr) (ho : q1.outbound_date = q2.outbound_date)
    (hr : q1.return_date = q2.return_date) (hh : q1.hl = q2.hl) (hg : q1.gl = q2.gl)
    (hc : q1.currency = q2.currency)
    (hcore : build_single_core caps q1 = build_single_core caps q2) :
    build_single_url caps tok q1 = build_single_url caps tok q2 := by
  unfold build_single_url
  rw [hd, ha, ho, hr, hh, hg, hc, hcore]

/-- C5 (amended): with valid codes/dates and structurally complete fields, an
unrecognized cabin-class or stop-cap code never fails compilation and is
recorded per link as unmatched (with its value); an unrecognized trip-type
code also never fails, but is silently compiled exactly as an explicit
one-way request and recorded nowhere. -/
theorem C5_unrecognized_enum_codes (caps : EncoderCaps) (tok : TFSArgs → String) (r : Request)
    (hmc : (r.type == some "3" || mc_truthy r.multi_city_json) = false)
    (hwt : well_typed r) (hnb : ¬ single_bad r) :
    (∃ res, build_gf_urls caps tok r = .ok res) ∧
    (∀ tc, r.travel_class = some tc → tc ≠ "" → travel_class_map tc = none →
      ∀ res, build_gf_urls caps tok r = .ok res → ∀ l ∈ res.links,
        ("travel_class (" ++ tc ++ ")") ∈ l.coverage.unmatched) ∧
    (∀ st, r.stops = some st → stops_map st = none →
      ∀ res, build_gf_urls caps tok r = .ok res → ∀ l ∈ res.links,
        ("stops (" ++ st ++ ")") ∈ l.coverage.unmatched) ∧
    (∀ t, r.type = some t → t ≠ "1" → t ≠ "2" → t ≠ "3" →
      ∀ od d a, build_single_url caps tok (mk_single_req r od d a) =
          build_single_url caps tok (mk_single_req { r with type := some "2" } od d a) ∧
        (build_single_core caps (mk_single_req r od d a)).1.trip = "one-way") := by
  have hmc2 : ¬ (r.type == some "3" || mc_truthy r.multi_city_json) = true := by
    rw [hmc]; simp
  obtain ⟨h1, h2, h3, h4⟩ := hwt.1 hmc
  refine ⟨?_, ?_, ?_, ?_⟩
  · obtain ⟨res, hres⟩ := (build_single_path_ok_iff caps tok r h1 h2 h3 h4).mpr hnb
    refine ⟨res, ?_⟩
    unfold build_gf_urls
    rw [if_neg hmc2]
    exact hres
  · intro tc htc hne hmap res hok l hl
    obtain ⟨p, _, _, hbs⟩ := build_single_path_links hmc hok l hl
    rw [build_single_url_ok_inv hbs]
    exact travel_class_unmatched_mem caps _ htc hne hmap
  · intro st hst hmap res hok l hl
    obtain ⟨p, _, _, hbs⟩ := build_single_path_links hmc hok l hl
    rw [build_single_url_ok_inv hbs]
    exact stops_unmatched_mem caps _ hst hmap
  · intro t hty ht1 ht2 ht3 od d a
    have hrt1 : round_trip_flag (mk_single_req r od d a) = false := by
      simp [round_trip_flag, mk_single_req, hty, ht1]
    have hrt2 : round_trip_flag (mk_single_req { r with type := some "2" } od d a) = false := by
      simp [round_trip_flag, mk_single_req]
    have hcore : build_single_core caps (mk_single_req r od d a) =
        build_single_core caps (mk_single_req { r with type := some "2" } od d a) :=
      build_single_core_one_way caps _ _ hrt1 hrt2 rfl rfl rfl rfl rfl rfl rfl rfl rfl rfl rfl rfl
    refine ⟨?_, ?_⟩
    · refine build_single_url_congr caps tok _ _ rfl rfl rfl ?_ rfl rfl rfl hcore
      show pass_return_date r = pass_return_date { r with type := some "2" }
      rw [pass_return_date_none hty ht1, pass_return_date_none (r := { r with type := some "2" }) rfl (by decide)]
    · simp only [build_single_core, hrt1, Bool.false_eq_true, if_false]

def reqC5 : Request :=
  { departure_id := some "SYD", arrival_id := some "MEL",
    outbound_date := some "2025-08-15", return_date := some "2025-08-20",
    type := some "7" }

set_option maxHeartbeats 2000000 in
/-- Counterexample to C5 as stated: an out-of-range trip-type code `"7"` does
not fail, but no coverage set (per-link or global) records it as unmatched —
every set is exactly the constant encoded list. -/
theorem C5_counterexample :
    reqC5.type = some "7" ∧
    (build_gf_urls capsAll tokT reqC5).toOption.map
      (fun res => (res.links.map (fun l => l.coverage), res.unmatched_global)) =
      some ([⟨["tfs", "hl", "gl", "currency"], [], []⟩], []) := by
  exact ⟨rfl, by decide⟩

def reqC5w : Request :=
  { departure_id := some "SYD", arrival_id := some "MEL",
    outbound_date := some "2025-08-15", travel_class := some "9",
    stops := some "8", type := some "7" }

set_option maxHeartbeats 2000000 in
/-- Witness for the amended C5 at a request with out-of-range cabin, stop and
trip-type codes. -/
theorem C5_unrecognized_enum_codes_witness :
    ("travel_class (9)") ∈ (linkAt (build_gf_urls capsAll tokT reqC5w) 0).coverage.unmatched ∧
    ("stops (8)") ∈ (linkAt (build_gf_urls capsAll tokT reqC5w) 0).coverage.unmatched ∧
    (build_single_core capsAll (mk_single_req reqC5w "2025-08-15" "SYD" "MEL")).1.trip =
      "one-way" := by
  have hwt : well_typed reqC5w := by
    refine ⟨fun _ => ⟨by decide, by decide, ?_, ?_⟩, fun hcon => absurd hcon (by decide)⟩
    · intro s h hne
      cases h
      decide
    · intro s h hne
      exact Option.noConfusion h
  have h := C5_unrecognized_enum_codes capsAll tokT reqC5w (by decide) hwt (by decide)
  have hok : build_gf_urls capsAll tokT reqC5w =
      .ok (resOf (build_gf_urls capsAll tokT reqC5w)) := by rfl
  refine ⟨?_, ?_, ?_⟩
  · exact h.2.1 "9" rfl (by decide) (by decide) _ hok _ (by decide)
  · exact h.2.2.1 "8" rfl (by decide) _ hok _ (by decide)
  · exact (h.2.2.2 "7" rfl (by decide) (by decide) (by decide) "2025-08-15" "SYD" "MEL").2

set_option maxHeartbeats 1600000 in
theorem build_single_path_congr (caps : EncoderCaps) (tok : TFSArgs → String)
    (r1 r2 : Request)
    (hdep : r1.departure_id = r2.departure_id) (harr : r1.arrival_id = r2.arrival_id)
    (hod : r1.outbound_date = r2.outbound_date)
    (hguard : (r1.type == some "1" && !rd_truthy r1) = (r2.type == some "1" && !rd_truthy r2))
    (hurl : ∀ od d a, build_single_url caps tok (mk_single_req r1 od d a) =
      build_single_url caps tok (mk_single_req r2 od d a))
    (hfl : serpapi_only_flags r1 = serpapi_only_flags r2) :
    (build_single_path caps tok r1).map (fun res => (res.links, res.unmatched_global)) =
      (build_single_path caps tok r2).map (fun res => (res.links, res.unmatched_global)) := by
  simp only [build_single_path]
  rw [hdep, harr, hod, hguard, hfl]
  by_cases hde : ((csv_to_list r2.departure_id).isEmpty ||
      (csv_to_list r2.arrival_id).isEmpty) = true
  · rw [if_pos hde, if_pos hde]
  · rw [if_neg hde, if_neg hde]
    cases hodc : r2.outbound_date with
    | none => rfl
    | some od =>
      dsimp only
      by_cases hoe : od = ""
      · rw [if_pos hoe, if_pos hoe]
      · rw [if_neg hoe, if_neg hoe]
        by_cases hg : (r2.type == some "1" && !rd_truthy r2) = true
        · rw [if_pos hg, if_pos hg]
        · rw [if_neg hg, if_neg hg]
          rw [show (fun p : String × String =>
              build_single_url caps tok (mk_single_req r1 od p.1 p.2)) =
              (fun p : String × String =>
                build_single_url caps tok (mk_single_req r2 od p.1 p.2)) from
            funext (fun p => hurl od p.1 p.2)]
          cases hloop : build_links_loop
              (fun p => build_single_url caps tok (mk_single_req r2 od p.1 p.2))
              (pairs_of (csv_to_list r2.departure_id) (csv_to_list r2.arrival_id)) with
          | error e => simp only [Except.map]
          | ok links => simp only [Except.map]

theorem rd_truthy_exists {r : Request} (h : rd_truthy r = true) :
    ∃ s, r.return_date = some s := by
  unfold rd_truthy at h
  cases hr : r.return_date with
  | none => rw [hr] at h; cases h
  | some s => exact ⟨s, rfl⟩

/-- C10: a single-pair request carrying both a return date and the explicit
one-way type code compiles exactly as the same request without the return
date — single-leg one-way links, identical coverage, identical global
unmatched list, no record of the dropped date anywhere — while the same
request with no type code compiles as a round trip. -/
theorem C10_one_way_type_drops_return (caps : EncoderCaps) (tok : TFSArgs → String)
    (r : Request)
    (hmc : (r.type == some "3" || mc_truthy r.multi_city_json) = false)
    (hty : r.type = some "2") (hrd : rd_truthy r = true) :
    (∀ od d a, build_single_url caps tok (mk_single_req r od d a) =
        build_single_url caps tok (mk_single_req { r with return_date := none } od d a)) ∧
    (∀ od d a, (build_single_core caps (mk_single_req r od d a)).1.trip = "one-way" ∧
        (build_single_core caps (mk_single_req r od d a)).1.flight_data = [⟨some od, d, a⟩]) ∧
    ((build_gf_urls caps tok r).map (fun res => (res.links, res.unmatched_global)) =
      (build_gf_urls caps tok { r with return_date := none }).map
        (fun res => (res.links, res.unmatched_global))) ∧
    (∀ od d a,
      (build_single_core caps (mk_single_req { r with type := none } od d a)).1.trip =
        "round-trip") := by
  have hmc2 : ¬ (r.type == some "3" || mc_truthy r.multi_city_json) = true := by
    rw [hmc]; simp
  have hpass1 : pass_return_date r = none := pass_return_date_none hty (by decide)
  have hpass2 : pass_return_date { r with return_date := none } = none :=
    pass_return_date_none (r := { r with return_date := none }) hty (by decide)
  have hone : ∀ od d a, build_single_url caps tok (mk_single_req r od d a) =
      build_single_url caps tok (mk_single_req { r with return_date := none } od d a) := by
    intro od d a
    have hrt1 : round_trip_flag (mk_single_req r od d a) = false := by
      simp [round_trip_flag, mk_single_req, hty]
    have hrt2 : round_trip_flag (mk_single_req { r with return_date := none } od d a) = false := by
      simp [round_trip_flag, mk_single_req, hty]
    refine build_single_url_congr caps tok _ _ rfl rfl rfl ?_ rfl rfl rfl
      (build_single_core_one_way caps _ _ hrt1 hrt2 rfl rfl rfl rfl rfl rfl rfl rfl rfl rfl rfl
        rfl)
    show pass_return_date r = pass_return_date { r with return_date := none }
    rw [hpass1, hpass2]
  refine ⟨hone, ?_, ?_, ?_⟩
  · intro od d a
    have hrt1 : round_trip_flag (mk_single_req r od d a) = false := by
      simp [round_trip_flag, mk_single_req, hty]
    refine ⟨by simp only [build_single_core, hrt1, Bool.false_eq_true, if_false], ?_⟩
    simp only [build_single_core, hrt1, Bool.false_eq_true, if_false]
    rfl
  · unfold build_gf_urls
    rw [if_neg hmc2,
      if_neg (show ¬ (({ r with return_date := none } : Request).type == some "3" ||
        mc_truthy ({ r with return_date := none } : Request).multi_city_json) = true from hmc2)]
    have hrd2 : rd_truthy { r with return_date := none } = false := rfl
    exact build_single_path_congr caps tok r { r with return_date := none } rfl rfl rfl
      (by simp [hty, hrd2]) hone rfl
  · intro od d a
    obtain ⟨s, hs⟩ := rd_truthy_exists hrd
    have hs2 : s ≠ "" := by
      unfold rd_truthy at hrd
      rw [hs] at hrd
      simpa using hrd
    have hrt : round_trip_flag (mk_single_req { r with type := none } od d a) = true := by
      have hpass : pass_return_date { r with type := none } = r.return_date := by
        unfold pass_return_date
        rw [if_pos (by simp [rd_truthy, hs, hs2])]
      simp only [round_trip_flag, mk_single_req]
      rw [hpass, hs]
      simp
    simp only [build_single_core, hrt, if_true]

def reqC10 : Request :=
  { departure_id := some "SYD", arrival_id := some "MEL",
    outbound_date := some "2025-08-15", return_date := some "2025-08-20",
    type := some "2" }

/-- Witness for C10: with `type="2"` the itinerary is a single leg; with no
type code the same request is a round trip. -/
theorem C10_one_way_type_drops_return_witness :
    (build_single_core capsAll (mk_single_req reqC10 "2025-08-15" "SYD" "MEL")).1.flight_data =
      [⟨some "2025-08-15", "SYD", "MEL"⟩] ∧
    (build_single_core capsAll
      (mk_single_req { reqC10 with type := none } "2025-08-15" "SYD" "MEL")).1.trip =
      "round-trip" := by
  have h := C10_one_way_type_drops_return capsAll tokT reqC10 (by decide) rfl (by decide)
  exact ⟨(h.2.1 "2025-08-15" "SYD" "MEL").2, h.2.2.2 "2025-08-15" "SYD" "MEL"⟩

/-- A multi-city leg object with the three SerpApi sub-fields. -/
def objOf (d a t : String) : JVal :=
  .obj [("departure_id", .str d), ("arrival_id", .str a), ("date", .str t)]

theorem date_ne_empty {s : String} (h : iso_date_valid s = true) : s ≠ "" := by
  intro he
  rw [he] at h
  exact absurd h (by decide)

theorem from_interface_ok_mc_false {caps : EncoderCaps} {a : TFSArgs}
    (h : caps.multi_city = false) (ht : a.trip = "multi-city") :
    from_interface_ok caps a = false := by
  unfold from_interface_ok
  rw [ht, h]
  simp

theorem extract_mc_legs_cons_obj {d a t : String} {rest : List JVal}
    (hdv : is_airport_or_place d = true) (hav : is_airport_or_place a = true)
    (htv : iso_date_valid t = true) (hdn : d ≠ "") (han : a ≠ "") (htn : t ≠ "") :
    extract_mc_legs (objOf d a t :: rest) =
      match extract_mc_legs rest with
      | .error e => .error e
      | .ok ls => .ok (⟨d, a, t⟩ :: ls) := by
  simp only [extract_mc_legs, objOf, jGet]
  simp [jLookup, opt_jtruthy, jTruthy, hdn, han, htn, validate_code_json,
    validate_date_json, hdv, hav, htv]

/-- C9: a 3-leg multi-city request whose encoder rejects multi-city
construction does not propagate the rejection; it compiles to exactly the 2
one-way fallback links for legs 1 and 2 and records the multi-city-unsupported
entry in the global unmatched set. -/
theorem C9_multi_city_fallback (caps : EncoderCaps) (tok : TFSArgs → String) (r : Request)
    (d1 a1 t1 d2 a2 t2 d3 a3 t3 raw : String)
    (hcap : caps.multi_city = false)
    (hj : r.multi_city_json =
      some (raw, some (.arr [objOf d1 a1 t1, objOf d2 a2 t2, objOf d3 a3 t3])))
    (hraw : raw ≠ "")
    (hv1 : is_airport_or_place d1 = true) (hw1 : is_airport_or_place a1 = true)
    (hx1 : iso_date_valid t1 = true)
    (hv2 : is_airport_or_place d2 = true) (hw2 : is_airport_or_place a2 = true)
    (hx2 : iso_date_valid t2 = true)
    (hv3 : is_airport_or_place d3 = true) (hw3 : is_airport_or_place a3 = true)
    (hx3 : iso_date_valid t3 = true) :
    ∃ res, build_gf_urls caps tok r = .ok res ∧
      res.links.length = 2 ∧
      res.links =
        [⟨urlOf (tok (build_single_core caps (mc_single_req r ⟨d1, a1, t1⟩)).1)
            r.hl r.gl r.currency, (build_single_core caps (mc_single_req r ⟨d1, a1, t1⟩)).2⟩,
         ⟨urlOf (tok (build_single_core caps (mc_single_req r ⟨d2, a2, t2⟩)).1)
            r.hl r.gl r.currency, (build_single_core caps (mc_single_req r ⟨d2, a2, t2⟩)).2⟩] ∧
      mc_entry_str ∈ res.unmatched_global := by
  have hmcT : (r.type == some "3" || mc_truthy r.multi_city_json) = true := by
    simp [mc_truthy, hj, hraw]
  have hlj : mc_legs_json r = .ok [objOf d1 a1 t1, objOf d2 a2 t2, objOf d3 a3 t3] := by
    unfold mc_legs_json
    rw [hj]
    dsimp only
    rw [if_pos (by simpa using hraw)]
  have hext : extract_mc_legs [objOf d1 a1 t1, objOf d2 a2 t2, objOf d3 a3 t3] =
      .ok [⟨d1, a1, t1⟩, ⟨d2, a2, t2⟩, ⟨d3, a3, t3⟩] := by
    rw [extract_mc_legs_cons_obj hv1 hw1 hx1 (airport_ne_empty hv1) (airport_ne_empty hw1)
      (date_ne_empty hx1)]
    rw [extract_mc_legs_cons_obj hv2 hw2 hx2 (airport_ne_empty hv2) (airport_ne_empty hw2)
      (date_ne_empty hx2)]
    rw [extract_mc_legs_cons_obj hv3 hw3 hx3 (airport_ne_empty hv3) (airport_ne_empty hw3)
      (date_ne_empty hx3)]
    rfl
  have hpath : build_gf_urls caps tok r =
      build_multi_city_core caps tok r [⟨d1, a1, t1⟩, ⟨d2, a2, t2⟩, ⟨d3, a3, t3⟩] := by
    unfold build_gf_urls
    rw [if_pos hmcT]
    unfold build_multi_city
    rw [hlj]
    dsimp only
    rw [hext]
  have hb1 : build_single_url caps tok (mc_single_req r ⟨d1, a1, t1⟩) =
      .ok ⟨urlOf (tok (build_single_core caps (mc_single_req r ⟨d1, a1, t1⟩)).1)
        r.hl r.gl r.currency, (build_single_core caps (mc_single_req r ⟨d1, a1, t1⟩)).2⟩ :=
    build_single_url_ok hv1 hw1 hx1 (fun hcon => Bool.noConfusion hcon)
  have hb2 : build_single_url caps tok (mc_single_req r ⟨d2, a2, t2⟩) =
      .ok ⟨urlOf (tok (build_single_core caps (mc_single_req r ⟨d2, a2, t2⟩)).1)
        r.hl r.gl r.currency, (build_single_core caps (mc_single_req r ⟨d2, a2, t2⟩)).2⟩ :=
    build_single_url_ok hv2 hw2 hx2 (fun hcon => Bool.noConfusion hcon)
  rw [hpath]
  simp only [build_multi_city_core]
  have hf0 : ∀ b : TFSArgs, b.trip = "multi-city" → from_interface_ok caps b = false :=
    fun b hb => from_interface_ok_mc_false hcap hb
  have hp1 : mc_probe caps (!(csv_to_list r.include_airlines).isEmpty)
      (mc_args0 r [⟨d1, a1, t1⟩, ⟨d2, a2, t2⟩, ⟨d3, a3, t3⟩])
      { mc_args0 r [⟨d1, a1, t1⟩, ⟨d2, a2, t2⟩, ⟨d3, a3, t3⟩] with
        include_airlines := some (csv_to_list r.include_airlines) } inc_ns_entry =
      (mc_args0 r [⟨d1, a1, t1⟩, ⟨d2, a2, t2⟩, ⟨d3, a3, t3⟩],
       if (!(csv_to_list r.include_airlines).isEmpty) = true then [inc_ns_entry] else []) := by
    unfold mc_probe
    cases (!(csv_to_list r.include_airlines).isEmpty) with
    | false => simp
    | true =>
      have hx := hf0 { mc_args0 r [⟨d1, a1, t1⟩, ⟨d2, a2, t2⟩, ⟨d3, a3, t3⟩] with
        include_airlines := some (csv_to_list r.include_airlines) } rfl
      simp [hx]
  rw [hp1]
  have hp2 : mc_probe caps (!(csv_to_list r.exclude_airlines).isEmpty)
      (mc_args0 r [⟨d1, a1, t1⟩, ⟨d2, a2, t2⟩, ⟨d3, a3, t3⟩])
      { mc_args0 r [⟨d1, a1, t1⟩, ⟨d2, a2, t2⟩, ⟨d3, a3, t3⟩] with
        exclude_airlines := some (csv_to_list r.exclude_airlines) } exc_ns_entry =
      (mc_args0 r [⟨d1, a1, t1⟩, ⟨d2, a2, t2⟩, ⟨d3, a3, t3⟩],
       if (!(csv_to_list r.exclude_airlines).isEmpty) = true then [exc_ns_entry] else []) := by
    unfold mc_probe
    cases (!(csv_to_list r.exclude_airlines).isEmpty) with
    | false => simp
    | true =>
      have hx := hf0 { mc_args0 r [⟨d1, a1, t1⟩, ⟨d2, a2, t2⟩, ⟨d3, a3, t3⟩] with
        exclude_airlines := some (csv_to_list r.exclude_airlines) } rfl
      simp [hx]
  rw [hp2]
  have hfin := hf0 (mc_args0 r [⟨d1, a1, t1⟩, ⟨d2, a2, t2⟩, ⟨d3, a3, t3⟩]) rfl
  rw [if_neg (by rw [hfin]; simp)]
  have hloop : build_links_loop
      (fun l => build_single_url caps tok (mc_single_req r l))
      ([⟨d1, a1, t1⟩, ⟨d2, a2, t2⟩, (⟨d3, a3, t3⟩ : MCLeg)].dropLast) =
      .ok [⟨urlOf (tok (build_single_core caps (mc_single_req r ⟨d1, a1, t1⟩)).1)
              r.hl r.gl r.currency, (build_single_core caps (mc_single_req r ⟨d1, a1, t1⟩)).2⟩,
           ⟨urlOf (tok (build_single_core caps (mc_single_req r ⟨d2, a2, t2⟩)).1)
              r.hl r.gl r.currency, (build_single_core caps (mc_single_req r ⟨d2, a2, t2⟩)).2⟩] := by
    simp only [List.dropLast, build_links_loop, hb1, hb2]
  rw [hloop]
  refine ⟨_, rfl, rfl, rfl, ?_⟩
  rw [mem_sort_dedup]
  simp

def reqC9 : Request :=
  { multi_city_json := some ("[legs]",
      some (.arr [objOf "SYD" "MEL" "2025-08-15", objOf "MEL" "BNE" "2025-08-18",
        objOf "BNE" "SYD" "2025-08-21"])) }

set_option maxHeartbeats 2000000 in
/-- Witness for C9 at a concrete 3-leg request against an encoder without
multi-city support. -/
theorem C9_multi_city_fallback_witness :
    (resOf (build_gf_urls capsNoMC tokT reqC9)).links.length = 2 ∧
    mc_entry_str ∈ (resOf (build_gf_urls capsNoMC tokT reqC9)).unmatched_global := by
  obtain ⟨res, hok, hlen, hlinks, hmem⟩ :=
    C9_multi_city_fallback capsNoMC tokT reqC9 "SYD" "MEL" "2025-08-15" "MEL" "BNE"
      "2025-08-18" "BNE" "SYD" "2025-08-21" "[legs]" rfl rfl (by decide) (by decide)
      (by decide) (by decide) (by decide) (by decide) (by decide) (by decide) (by decide)
      (by decide)
  have hres : resOf (build_gf_urls capsNoMC tokT reqC9) = res := by
    rw [resOf, hok]
    rfl
  rw [hres]
  exact ⟨hlen, hmem⟩

def dtw_ns_entry : String := "dep_time_window (not supported by installed fast-flights)"

def atw_ns_entry : String := "arr_time_window (not supported by installed fast-flights)"

def ret_approx_str : String :=
  "return_times (per-leg windows unsupported; only outbound applied)"

theorem isPrefixOf_self_append {l m : List Char} : l.isPrefixOf (l ++ m) = true := by
  rw [List.isPrefixOf_iff_prefix]
  exact List.prefix_append l m

theorem prefix_of_append2 (pre x suf : String) :
    pre.data.isPrefixOf (((pre ++ x) ++ suf).data) = true := by
  rw [String.data_append, String.data_append, List.append_assoc]
  exact isPrefixOf_self_append

theorem ne_shape {pre x suf t : String} (h : pre.data.isPrefixOf t.data = false) :
    t ≠ (pre ++ x) ++ suf := by
  intro he
  rw [he, prefix_of_append2] at h
  cases h

theorem ne_shape_shape {p1 p2 : String}
    (h12 : p1.data.isPrefixOf p2.data = false) (h21 : p2.data.isPrefixOf p1.data = false)
    (x1 s1 x2 s2 : String) : (p1 ++ x1) ++ s1 ≠ (p2 ++ x2) ++ s2 := by
  intro he
  have hp1 : p1.data <+: ((p1 ++ x1) ++ s1).data :=
    List.isPrefixOf_iff_prefix.mp (prefix_of_append2 p1 x1 s1)
  have hp2 : p2.data <+: ((p1 ++ x1) ++ s1).data := by
    rw [he]
    exact List.isPrefixOf_iff_prefix.mp (prefix_of_append2 p2 x2 s2)
  rcases List.prefix_or_prefix_of_prefix hp1 hp2 with h | h
  · rw [← List.isPrefixOf_iff_prefix, h12] at h
    cases h
  · rw [← List.isPrefixOf_iff_prefix, h21] at h
    cases h

theorem cov_tc_enc_mem {tc? : Option String} {x : String}
    (h : x ∈ (cov_travel_class tc?).1) : x = "travel_class" := by
  cases tc? with
  | none => cases h
  | some tc =>
    by_cases h2 : tc = ""
    · simp [cov_travel_class, h2] at h
    · cases h3 : travel_class_map tc with
      | some v => simp [cov_travel_class, h2, h3] at h; exact h
      | none => simp [cov_travel_class, h2, h3] at h

theorem cov_tc_unm_mem {tc? : Option String} {x : String}
    (h : x ∈ (cov_travel_class tc?).2) : ∃ tc, x = ("travel_class (" ++ tc) ++ ")" := by
  cases tc? with
  | none => cases h
  | some tc =>
    by_cases h2 : tc = ""
    · simp [cov_travel_class, h2] at h
    · cases h3 : travel_class_map tc with
      | some v => simp [cov_travel_class, h2, h3] at h
      | none =>
        simp [cov_travel_class, h2, h3] at h
        exact ⟨tc, h⟩

theorem cov_tc_of_some {tc v : String} (h3 : travel_class_map tc = some v) :
    cov_travel_class (some tc) = (["travel_class"], []) := by
  have h2 : tc ≠ "" := by
    intro he
    rw [he] at h3
    cases h3
  simp [cov_travel_class, h2, h3]

theorem stops_enc_mem {s? : Option String} {x : String}
    (h : x ∈ (stops_resolve s?).2.1) : x = "stops" := by
  cases s? with
  | none => cases h
  | some s =>
    cases h3 : stops_map s with
    | some v => simp [stops_resolve, h3] at h; exact h
    | none => simp [stops_resolve, h3] at h

theorem stops_unm_mem {s? : Option String} {x : String}
    (h : x ∈ (stops_resolve s?).2.2) : ∃ s, x = ("stops (" ++ s) ++ ")" := by
  cases s? with
  | none => cases h
  | some s =>
    cases h3 : stops_map s with
    | some v => simp [stops_resolve, h3] at h
    | none =>
      simp [stops_resolve, h3] at h
      exact ⟨s, h⟩

theorem stops_of_some {s : String} {v : Option Int} (h3 : stops_map s = some v) :
    stops_resolve (some s) = (v, ["stops"], []) := by
  simp [stops_resolve, h3]

theorem try_enc_mem {sup : Bool} {n x : String} (h : x ∈ (try_kw sup n).2.1) :
    x = n ∧ sup = true := by
  cases sup with
  | false => simp [try_kw] at h
  | true =>
    simp [try_kw] at h
    exact ⟨h, rfl⟩

theorem try_unm_mem {sup : Bool} {n x : String} (h : x ∈ (try_kw sup n).2.2) :
    x = n ++ " (not supported by installed fast-flights)" ∧ sup = false := by
  cases sup with
  | false =>
    simp [try_kw] at h
    exact ⟨h, rfl⟩
  | true => simp [try_kw] at h

theorem ite_triple_enc_mem {c : Prop} [Decidable c] {t : Bool × List String × List String}
    {x : String} (h : x ∈ (if c then t else (false, [], [])).2.1) : x ∈ t.2.1 ∧ c := by
  split at h
  · exact ⟨h, by assumption⟩
  · cases h

theorem ite_triple_unm_mem {c : Prop} [Decidable c] {t : Bool × List String × List String}
    {x : String} (h : x ∈ (if c then t else (false, [], [])).2.2) : x ∈ t.2.2 ∧ c := by
  split at h
  · exact ⟨h, by assumption⟩
  · cases h

theorem plw_enc_mem {b1 b2 : Bool} {x : String}
    (h : x ∈ (if b1 = true then
      (if b2 = true then (true, ["dep_time_windows/arr_time_windows"], ([] : List String))
       else (false, [], ["return_times (per-leg windows unsupported; only outbound applied)"]))
      else (false, [], [])).2.1) : x = "dep_time_windows/arr_time_windows" := by
  cases b1 <;> cases b2 <;> simp_all

theorem plw_app_mem {b1 b2 : Bool} {x : String}
    (h : x ∈ (if b1 = true then
      (if b2 = true then (true, ["dep_time_windows/arr_time_windows"], ([] : List String))
       else (false, [], ["return_times (per-leg windows unsupported; only outbound applied)"]))
      else (false, [], [])).2.2) : x = ret_approx_str := by
  cases b1 <;> cases b2 <;> simp_all [ret_approx_str]

theorem core_enc_mem_elim (caps : EncoderCaps) (q : SingleReq) {x : String}
    (hx : x ∈ (build_single_core caps q).2.encoded) :
    x ∈ (cov_travel_class q.travel_class).1 ∨
    x ∈ (stops_resolve q.stops).2.1 ∨
    (x = "include_airlines" ∧ caps.include_airlines = true) ∨
    (x = "exclude_airlines" ∧ caps.exclude_airlines = true) ∨
    x = "dep_time_window" ∨ x = "arr_time_window" ∨
    x = "dep_time_windows/arr_time_windows" ∨
    x = "tfs" ∨ x = "hl" ∨ x = "gl" ∨ x = "currency" := by
  simp only [build_single_core] at hx
  simp only [List.mem_append, or_assoc] at hx
  rcases hx with h | h | h | h | h | h | h | h
  · exact Or.inl h
  · exact Or.inr (Or.inl h)
  · obtain ⟨h, _⟩ := ite_triple_enc_mem h
    obtain ⟨he, hs⟩ := try_enc_mem h
    exact Or.inr (Or.inr (Or.inl ⟨he, hs⟩))
  · obtain ⟨h, _⟩ := ite_triple_enc_mem h
    obtain ⟨he, hs⟩ := try_enc_mem h
    exact Or.inr (Or.inr (Or.inr (Or.inl ⟨he, hs⟩)))
  · obtain ⟨h, _⟩ := ite_triple_enc_mem h
    exact Or.inr (Or.inr (Or.inr (Or.inr (Or.inl (try_enc_mem h).1))))
  · obtain ⟨h, _⟩ := ite_triple_enc_mem h
    exact Or.inr (Or.inr (Or.inr (Or.inr (Or.inr (Or.inl (try_enc_mem h).1)))))
  · exact Or.inr (Or.inr (Or.inr (Or.inr (Or.inr (Or.inr (Or.inl (plw_enc_mem h)))))))
  · simp only [List.mem_cons] at h
    rcases h with h | h | h | h | h
    · subst h; simp
    · subst h; simp
    · subst h; simp
    · subst h; simp
    · exact absurd h (by simp)

theorem core_unm_mem_elim (caps : EncoderCaps) (q : SingleReq) {x : String}
    (hx : x ∈ (build_single_core caps q).2.unmatched) :
    x ∈ (cov_travel_class q.travel_class).2 ∨
    x ∈ (stops_resolve q.stops).2.2 ∨
    (x = inc_ns_entry ∧ caps.include_airlines = false) ∨
    (x = exc_ns_entry ∧ caps.exclude_airlines = false) ∨
    (x = dtw_ns_entry ∧ caps.dep_time_window = false) ∨
    (x = atw_ns_entry ∧ caps.arr_time_window = false) := by
  simp only [build_single_core] at hx
  simp only [List.mem_append, or_assoc] at hx
  rcases hx with h | h | h | h | h | h
  · exact Or.inl h
  · exact Or.inr (Or.inl h)
  · obtain ⟨h, _⟩ := ite_triple_unm_mem h
    obtain ⟨he, hs⟩ := try_unm_mem h
    exact Or.inr (Or.inr (Or.inl ⟨he, hs⟩))
  · obtain ⟨h, _⟩ := ite_triple_unm_mem h
    obtain ⟨he, hs⟩ := try_unm_mem h
    exact Or.inr (Or.inr (Or.inr (Or.inl ⟨he, hs⟩)))
  · obtain ⟨h, _⟩ := ite_triple_unm_mem h
    obtain ⟨he, hs⟩ := try_unm_mem h
    exact Or.inr (Or.inr (Or.inr (Or.inr (Or.inl ⟨he, hs⟩))))
  · obtain ⟨h, _⟩ := ite_triple_unm_mem h
    obtain ⟨he, hs⟩ := try_unm_mem h
    exact Or.inr (Or.inr (Or.inr (Or.inr (Or.inr ⟨he, hs⟩))))

theorem core_app_mem_elim (caps : EncoderCaps) (q : SingleReq) {x : String}
    (hx : x ∈ (build_single_core caps q).2.approximated) : x = ret_approx_str := by
  simp only [build_single_core] at hx
  exact plw_app_mem hx

/-- The three coverage name-sets produced by the single-URL core are pairwise
disjoint. -/
theorem core_cov_disjoint (caps : EncoderCaps) (q : SingleReq) :
    (build_single_core caps q).2.encoded.Disjoint (build_single_core caps q).2.approximated ∧
    (build_single_core caps q).2.encoded.Disjoint (build_single_core caps q).2.unmatched ∧
    (build_single_core caps q).2.approximated.Disjoint (build_single_core caps q).2.unmatched := by
  refine ⟨?_, ?_, ?_⟩
  · intro x hxe hxa
    have ha := core_app_mem_elim caps q hxa
    subst ha
    rcases core_enc_mem_elim caps q hxe with h | h | ⟨h, _⟩ | ⟨h, _⟩ | h | h | h | h | h | h | h
    · exact absurd (cov_tc_enc_mem h) (by decide)
    · exact absurd (stops_enc_mem h) (by decide)
    all_goals exact absurd h (by decide)
  · intro x hxe hxu
    rcases core_unm_mem_elim caps q hxu with h | h | ⟨h, _⟩ | ⟨h, _⟩ | ⟨h, _⟩ | ⟨h, _⟩
    · obtain ⟨tc, rfl⟩ := cov_tc_unm_mem h
      rcases core_enc_mem_elim caps q hxe with h2 | h2 | ⟨h2, _⟩ | ⟨h2, _⟩ | h2 | h2 | h2 | h2 | h2 | h2 | h2
      · exact absurd (cov_tc_enc_mem h2).symm (ne_shape (by decide))
      · exact absurd (stops_enc_mem h2).symm (ne_shape (by decide))
      all_goals exact absurd h2.symm (ne_shape (by decide))
    · obtain ⟨s2, rfl⟩ := stops_unm_mem h
      rcases core_enc_mem_elim caps q hxe with h2 | h2 | ⟨h2, _⟩ | ⟨h2, _⟩ | h2 | h2 | h2 | h2 | h2 | h2 | h2
      · exact absurd (cov_tc_enc_mem h2).symm (ne_shape (by decide))
      · exact absurd (stops_enc_mem h2).symm (ne_shape (by decide))
      all_goals exact absurd h2.symm (ne_shape (by decide))
    · subst h
      rcases core_enc_mem_elim caps q hxe with h2 | h2 | ⟨h2, _⟩ | ⟨h2, _⟩ | h2 | h2 | h2 | h2 | h2 | h2 | h2
      · exact absurd (cov_tc_enc_mem h2) (by decide)
      · exact absurd (stops_enc_mem h2) (by decide)
      all_goals exact absurd h2 (by decide)
    · subst h
      rcases core_enc_mem_elim caps q hxe with h2 | h2 | ⟨h2, _⟩ | ⟨h2, _⟩ | h2 | h2 | h2 | h2 | h2 | h2 | h2
      · exact absurd (cov_tc_enc_mem h2) (by decide)
      · exact absurd (stops_enc_mem h2) (by decide)
      all_goals exact absurd h2 (by decide)
    · subst h
      rcases core_enc_mem_elim caps q hxe with h2 | h2 | ⟨h2, _⟩ | ⟨h2, _⟩ | h2 | h2 | h2 | h2 | h2 | h2 | h2
      · exact absurd (cov_tc_enc_mem h2) (by decide)
      · exact absurd (stops_enc_mem h2) (by decide)
      all_goals exact absurd h2 (by decide)
    · subst h
      rcases core_enc_mem_elim caps q hxe with h2 | h2 | ⟨h2, _⟩ | ⟨h2, _⟩ | h2 | h2 | h2 | h2 | h2 | h2 | h2
      · exact absurd (cov_tc_enc_mem h2) (by decide)
      · exact absurd (stops_enc_mem h2) (by decide)
      all_goals exact absurd h2 (by decide)
  · intro x hxa hxu
    have ha := core_app_mem_elim caps q hxa
    subst ha
    rcases core_unm_mem_elim caps q hxu with h | h | ⟨h, _⟩ | ⟨h, _⟩ | ⟨h, _⟩ | ⟨h, _⟩
    · obtain ⟨tc, he⟩ := cov_tc_unm_mem h
      exact absurd he (ne_shape (by decide))
    · obtain ⟨s2, he⟩ := stops_unm_mem h
      exact absurd he (ne_shape (by decide))
    all_goals exact absurd h (by decide)

/-- Every link of a successful build carries either the fixed multi-city
coverage or the coverage of one single-URL core build. -/
theorem build_links_coverage {caps : EncoderCaps} {tok : TFSArgs → String} {r : Request}
    {res : BuildResult} (hok : build_gf_urls caps tok r = .ok res) :
    ∀ l ∈ res.links, l.coverage = ⟨["tfs", "hl", "gl", "currency"], [], []⟩ ∨
      ∃ q : SingleReq, l.coverage = (build_single_core caps q).2 := by
  by_cases hmc : (r.type == some "3" || mc_truthy r.multi_city_json) = true
  · have hok2 := hok
    simp only [build_gf_urls, hmc, if_true] at hok2
    simp only [build_multi_city] at hok2
    cases hj : mc_legs_json r with
    | error e => rw [hj] at hok2; cases hok2
    | ok xs =>
      rw [hj] at hok2
      dsimp only at hok2
      cases hx : extract_mc_legs xs with
      | error e => rw [hx] at hok2; cases hok2
      | ok legs =>
        rw [hx] at hok2
        simp only [build_multi_city_core] at hok2
        split at hok2
        · injection hok2 with hok2
          subst hok2
          intro l hl
          simp only [List.mem_singleton] at hl
          subst hl
          exact Or.inl rfl
        · cases hloop : build_links_loop
              (fun l => build_single_url caps tok (mc_single_req r l)) legs.dropLast with
          | error e => rw [hloop] at hok2; cases hok2
          | ok links =>
            rw [hloop] at hok2
            injection hok2 with hok2
            subst hok2
            intro l hl
            obtain ⟨leg, _, hfeq⟩ := build_links_loop_mem hloop l hl
            exact Or.inr ⟨mc_single_req r leg, build_single_url_ok_inv hfeq⟩
  · rw [Bool.not_eq_true] at hmc
    intro l hl
    obtain ⟨p, _, _, hfeq⟩ := build_single_path_links hmc hok l hl
    exact Or.inr ⟨mk_single_req r (r.outbound_date.getD "") p.1 p.2,
      build_single_url_ok_inv hfeq⟩

/-- C3: for every link of a successful compilation the three per-link coverage
name-sets (encoded, approximated, unmatched) are pairwise disjoint; and
(amended) the four filter parameters the single-URL builder tracks —
travel_class, stops, include_airlines, exclude_airlines — appear, when
supplied, in at least (hence, by the disjointness, exactly) one set of the
corresponding single-URL core coverage.  Other supplied parameters (the trip
type, passenger counts, or return_times on a one-way link) may be absent from
all three sets, refuting the universally quantified original claim. -/
theorem C3_coverage_disjoint_supplied (caps : EncoderCaps) (tok : TFSArgs → String)
    (r : Request) (res : BuildResult) (hok : build_gf_urls caps tok r = .ok res) :
    (∀ l ∈ res.links,
      l.coverage.encoded.Disjoint l.coverage.approximated ∧
      l.coverage.encoded.Disjoint l.coverage.unmatched ∧
      l.coverage.approximated.Disjoint l.coverage.unmatched) ∧
    (∀ q : SingleReq,
      (∀ tc, q.travel_class = some tc → tc ≠ "" →
        "travel_class" ∈ (build_single_core caps q).2.encoded ∨
        ("travel_class (" ++ tc) ++ ")" ∈ (build_single_core caps q).2.unmatched) ∧
      (∀ s, q.stops = some s →
        "stops" ∈ (build_single_core caps q).2.encoded ∨
        ("stops (" ++ s) ++ ")" ∈ (build_single_core caps q).2.unmatched) ∧
      (q.include_airlines ≠ [] →
        "include_airlines" ∈ (build_single_core caps q).2.encoded ∨
        inc_ns_entry ∈ (build_single_core caps q).2.unmatched) ∧
      (q.exclude_airlines ≠ [] →
        "exclude_airlines" ∈ (build_single_core caps q).2.encoded ∨
        exc_ns_entry ∈ (build_single_core caps q).2.unmatched)) := by
  constructor
  · intro l hl
    rcases build_links_coverage hok l hl with h | ⟨q, h⟩
    · rw [h]
      refine ⟨?_, ?_, ?_⟩
      · intro a _ hb; exact absurd hb (List.not_mem_nil a)
      · intro a _ hb; exact absurd hb (List.not_mem_nil a)
      · intro a ha _; exact absurd ha (List.not_mem_nil a)
    · rw [h]
      exact core_cov_disjoint caps q
  · intro q
    refine ⟨?_, ?_, ?_, ?_⟩
    · intro tc htc hne
      cases h3 : travel_class_map tc with
      | some v =>
        left
        have hcov := cov_tc_of_some h3
        simp [build_single_core, htc, hcov]
      | none =>
        right
        have hcov : cov_travel_class (some tc) = ([], ["travel_class (" ++ tc ++ ")"]) := by
          simp [cov_travel_class, hne, h3]
        simp [build_single_core, htc, hcov]
    · intro s hs
      cases h3 : stops_map s with
      | some v =>
        left
        have hst := stops_of_some h3
        simp [build_single_core, hs, hst]
      | none =>
        right
        have hst : stops_resolve (some s) = (none, [], ["stops (" ++ s ++ ")"]) := by
          simp [stops_resolve, h3]
        simp [build_single_core, hs, hst]
    · intro hne
      cases hc : caps.include_airlines with
      | true =>
        left
        simp [build_single_core, hne, hc, try_kw]
      | false =>
        right
        simp [build_single_core, hne, hc, try_kw, inc_ns_entry]
    · intro hne
      cases hc : caps.exclude_airlines with
      | true =>
        left
        simp [build_single_core, hne, hc, try_kw]
      | false =>
        right
        simp [build_single_core, hne, hc, try_kw, exc_ns_entry]

def reqC3 : Request :=
  { departure_id := some "SYD", arrival_id := some "MEL",
    outbound_date := some "2025-08-15", type := some "2",
    return_times := some "8,18" }

/-- Counterexample to the original C3: the caller supplies `return_times`,
compilation succeeds, yet the sole link's coverage is exactly the constant
encoded list — no coverage set mentions the supplied parameter (with
`type="2"` the leg is one-way, so the per-leg-window step is skipped and the
drop is recorded nowhere). -/
theorem C3_counterexample :
    reqC3.return_times = some "8,18" ∧
    (build_gf_urls capsAll tokT reqC3).toOption.map
      (fun res => res.links.map (fun l => l.coverage)) =
      some [⟨["tfs", "hl", "gl", "currency"], [], []⟩] := by
  exact ⟨rfl, by decide⟩

def reqC3w : Request :=
  { departure_id := some "SYD", arrival_id := some "MEL",
    outbound_date := some "2025-08-15", travel_class := some "2",
    stops := some "9" }

set_option maxHeartbeats 2000000 in
/-- Witness for the amended C3 at a concrete request: the link's encoded and
unmatched sets are disjoint, and the supplied travel_class code lands in one
coverage set. -/
theorem C3_coverage_disjoint_supplied_witness :
    ((linkAt (build_gf_urls capsAll tokT reqC3w) 0).coverage.encoded.Disjoint
      (linkAt (build_gf_urls capsAll tokT reqC3w) 0).coverage.unmatched) ∧
    ("travel_class" ∈
        (build_single_core capsAll (mk_single_req reqC3w "2025-08-15" "SYD" "MEL")).2.encoded ∨
      (("travel_class (" ++ "2") ++ ")") ∈
        (build_single_core capsAll (mk_single_req reqC3w "2025-08-15" "SYD" "MEL")).2.unmatched) := by
  have hok : build_gf_urls capsAll tokT reqC3w =
      .ok (resOf (build_gf_urls capsAll tokT reqC3w)) := rfl
  have h := C3_coverage_disjoint_supplied capsAll tokT reqC3w _ hok
  constructor
  · have hm : linkAt (build_gf_urls capsAll tokT reqC3w) 0 ∈
        (resOf (build_gf_urls capsAll tokT reqC3w)).links := by decide
    exact (h.1 _ hm).2.1
  · exact (h.2 (mk_single_req reqC3w "2025-08-15" "SYD" "MEL")).1 "2" rfl (by decide)
